import Mathlib

/-!
# OpenAI-compatible proxy over Ollama: translation layer

A shallow embedding of the Go packages `models`, `services` and `handlers`.

* Go strings are modelled by `String`; the builtin `len` of a string is its
  number of bytes, `String.utf8ByteSize`.
* A Go `interface{}` value is a `GoValue`, one constructor per dynamic type
  that the program inspects.
* Pointers to scalars (`*int`, `*float64`, `*bool`, `*string`) are `Option`s,
  `nil` being `none`.
* A nilable `[]string` field is an `Option (List String)`.
* The HTTP client, `encoding/json`, `bufio.Scanner`, `fmt` and the clock are
  external collaborators, collected in the structure `World`.
* `bufioScanLines` is the line scanner of the library with its default buffer
  limit; the theorems on the streaming method take `World.scanLines` to be it.
-/

namespace OpenAICompat

/-! ## Dynamic values -/

/-- A `float64`, kept as its bit pattern: the program only copies such values. -/
structure Float64 where
  bits : Nat
deriving DecidableEq, Repr

/-- The dynamic values stored in a Go `interface{}`. -/
inductive GoValue where
  | nil
  | bool (b : Bool)
  | float64 (f : Float64)
  | string (s : String)
  | slice (xs : List GoValue)
  | stringSlice (xs : List String)
  | map (kvs : List (String × GoValue))

/-- The comparison `v == nil` of an interface value. -/
def GoValue.isNil : GoValue → Bool
  | .nil => true
  | _ => false

/-- The index expression `m[key]` with the comma-ok form, on a map kept as an association list. -/
def mapIndex : List (String × GoValue) → String → Option GoValue
  | [], _ => none
  | (k, v) :: rest, key => if k = key then some v else mapIndex rest key

/-- The assignment `m[key] = v`. -/
def mapAssign : List (String × GoValue) → String → GoValue → List (String × GoValue)
  | [], key, v => [(key, v)]
  | (k, x) :: rest, key, v =>
    if k = key then (k, v) :: rest else (k, x) :: mapAssign rest key v

/-- A parsed JSON text. -/
inductive JSON where
  | null
  | bool (b : Bool)
  | number (f : Float64)
  | string (s : String)
  | array (xs : List JSON)
  | object (kvs : List (String × JSON))

mutual
/-- The value `encoding/json` stores when it unmarshals into an `interface{}`:
`nil`, `bool`, `float64`, `string`, `[]interface{}` or `map[string]interface{}`. -/
def decodeInterface : JSON → GoValue
  | .null => .nil
  | .bool b => .bool b
  | .number f => .float64 f
  | .string s => .string s
  | .array xs => .slice (decodeElements xs)
  | .object kvs => .map (decodeMembers [] kvs)
/-- The elements of a JSON array, in order. -/
def decodeElements : List JSON → List GoValue
  | [] => []
  | x :: xs => decodeInterface x :: decodeElements xs
/-- The members of a JSON object, a later duplicate key replacing an earlier one. -/
def decodeMembers (acc : List (String × GoValue)) : List (String × JSON) → List (String × GoValue)
  | [] => acc
  | (k, v) :: rest => decodeMembers (mapAssign acc k (decodeInterface v)) rest
end

/-! ## `strings.Join` -/

/-- The loop of `strings.Join` that writes the separator and the next element into the builder. -/
def joinLoop (sep : String) (b : String) : List String → String
  | [] => b
  | s :: rest => joinLoop sep (b ++ sep ++ s) rest

/-- The library function `strings.Join(elems, sep)`. -/
def stringsJoin (elems : List String) (sep : String) : String :=
  match elems with
  | [] => ""
  | [e] => e
  | e :: rest => joinLoop sep e rest

/-! ## `bufio.Scanner` -/

/-- The constant `bufio.MaxScanTokenSize`, the buffer limit of a scanner on which `Buffer` was
never called. -/
def MaxScanTokenSize : Nat :=
  64 * 1024

/-- The lines of a byte stream: it is cut at every newline, and what follows the last newline
counts as a line when it is not empty. -/
def rawLines : List Char → List (List Char)
  | [] => []
  | c :: cs =>
    if c = Char.ofNat 10 then [] :: rawLines cs
    else
      match rawLines cs with
      | [] => [[c]]
      | l :: ls => (c :: l) :: ls

/-- The lines of a response body, each without its newline. -/
def bodyLines (body : String) : List String :=
  (rawLines body.data).map String.mk

/-- The library function `dropCR`: a trailing carriage return is removed. -/
def dropCR (line : String) : String :=
  if line.data.getLast? = some (Char.ofNat 13) then String.mk line.data.dropLast else line

/-- The tokens that `scanner.Scan` and `scanner.Text` yield on a body for a scanner made by
`bufio.NewScanner`, whose split function is `ScanLines`: the lines of the body without their
line ends, up to the first line that does not fit the buffer, where `Scan` returns false with
`ErrTooLong`. A line fits when it has fewer than `MaxScanTokenSize` bytes; a last line of
exactly that size with no newline is taken as too long. -/
def bufioScanLines (body : String) : List String :=
  ((bodyLines body).takeWhile fun l => decide (l.utf8ByteSize < MaxScanTokenSize)).map dropCR

/-! ## `models/openai.go` -/

structure ChatMessage where
  Role : String
  Content : GoValue
  Name : String

/-- One iteration of the loop over `content` in `GetContentAsString`. -/
def appendPart (parts : List String) (part : GoValue) : List String :=
  match part with
  | .string str => parts ++ [str]
  | .map partMap =>
    match mapIndex partMap "text" with
    | some text =>
      match text with
      | .string textStr => parts ++ [textStr]
      | _ => parts
    | none => parts
  | _ => parts

/-- The method `(*ChatMessage).GetContentAsString`; `sprintV` is `fmt.Sprintf("%v", ·)`. -/
def ChatMessage.GetContentAsString (sprintV : GoValue → String) (m : ChatMessage) : String :=
  match m.Content with
  | .string content => content
  | .slice content => stringsJoin (content.foldl appendPart []) " "
  | .stringSlice content => stringsJoin content " "
  | content => sprintV content

structure ChatCompletionRequest where
  Model : String
  Messages : List ChatMessage
  MaxTokens : Option Int
  Temperature : Option Float64
  TopP : Option Float64
  N : Option Int
  Stream : Option Bool
  Stop : GoValue
  PresencePenalty : Option Float64
  FrequencyPenalty : Option Float64
  LogitBias : List (String × GoValue)
  User : String

structure ChatCompletionChoice where
  Index : Int
  Message : ChatMessage
  FinishReason : String

structure ChatCompletionUsage where
  PromptTokens : Int
  CompletionTokens : Int
  TotalTokens : Int

structure ChatCompletionResponse where
  ID : String
  Object : String
  Created : Int
  Model : String
  Choices : List ChatCompletionChoice
  Usage : ChatCompletionUsage

structure ChatCompletionStreamDelta where
  Role : String
  Content : String
deriving DecidableEq, Repr

structure ChatCompletionStreamChoice where
  Index : Int
  Delta : ChatCompletionStreamDelta
  FinishReason : Option String
deriving DecidableEq, Repr

structure ChatCompletionStreamResponse where
  ID : String
  Object : String
  Created : Int
  Model : String
  Choices : List ChatCompletionStreamChoice
deriving DecidableEq, Repr

structure CompletionRequest where
  Model : String
  Prompt : GoValue
  MaxTokens : Option Int
  Temperature : Option Float64
  TopP : Option Float64
  N : Option Int
  Stream : Option Bool
  Logprobs : Option Int
  Echo : Option Bool
  Stop : GoValue
  PresencePenalty : Option Float64
  FrequencyPenalty : Option Float64
  BestOf : Option Int
  User : String

structure CompletionChoice where
  Text : String
  Index : Int
  Logprobs : Option Int
  FinishReason : String
deriving DecidableEq, Repr

structure CompletionUsage where
  PromptTokens : Int
  CompletionTokens : Int
  TotalTokens : Int
deriving DecidableEq, Repr

structure CompletionResponse where
  ID : String
  Object : String
  Created : Int
  Model : String
  Choices : List CompletionChoice
  Usage : CompletionUsage
deriving DecidableEq, Repr

structure Model where
  ID : String
  Object : String
  Created : Int
  OwnedBy : String
deriving DecidableEq, Repr

structure ModelsResponse where
  Object : String
  Data : List Model
deriving DecidableEq, Repr

structure ErrorDetail where
  Message : String
  Type_ : String
  Code : String
deriving DecidableEq, Repr

structure ErrorResponse where
  Error : ErrorDetail
deriving DecidableEq, Repr

/-! ## `models/ollama.go` -/

structure OllamaOptions where
  Temperature : Option Float64
  TopP : Option Float64
  TopK : Option Int
  NumPredict : Option Int
  Stop : Option (List String)
  PresencePenalty : Option Float64
  FrequencyPenalty : Option Float64
deriving DecidableEq, Repr

structure OllamaChatRequest where
  Model : String
  Messages : List ChatMessage
  Stream : Bool
  Options : Option OllamaOptions

structure OllamaGenerateRequest where
  Model : String
  Prompt : String
  Stream : Bool
  Options : Option OllamaOptions
deriving DecidableEq, Repr

structure OllamaChatResponse where
  Model : String
  CreatedAt : String
  Message : ChatMessage
  Done : Bool

structure OllamaGenerateResponse where
  Model : String
  CreatedAt : String
  Response : String
  Done : Bool
deriving DecidableEq, Repr

structure OllamaModel where
  Name : String
  ModifiedAt : String
  Size : Int
  Digest : String
deriving DecidableEq, Repr

structure OllamaModelsResponse where
  Models : List OllamaModel
deriving DecidableEq, Repr

/-! ## `config/config.go` -/

structure Config where
  Port : String
  APIKey : String
  OllamaURL : String
  OllamaModel : String
deriving DecidableEq, Repr

/-! ## External collaborators -/

/-- A reading of `time.Now()`. -/
structure Time where
  Unix : Int
  UnixNano : Int
deriving DecidableEq, Repr

/-- What the HTTP client hands back for a request that reached the backend. -/
structure BackendResponse where
  StatusCode : Int
  Body : String
deriving DecidableEq, Repr

/-- A request issued through the HTTP client of the service. -/
inductive BackendCall where
  | post (url : String) (contentType : String) (body : String)
  | get (url : String)
deriving DecidableEq, Repr

/-- The libraries and the environment the service runs against. Errors are kept as their text. -/
structure World where
  /-- The method `client.Post`. -/
  post : String → String → String → Except String BackendResponse
  /-- The method `client.Get`. -/
  get : String → Except String BackendResponse
  /-- The call `json.Marshal` on a chat request for the backend. -/
  marshalChatRequest : OllamaChatRequest → Except String String
  /-- The call `json.Marshal` on a generate request for the backend. -/
  marshalGenerateRequest : OllamaGenerateRequest → Except String String
  /-- The call `json.Marshal` on a streaming envelope. -/
  marshalStreamResponse : ChatCompletionStreamResponse → Except String String
  /-- The call `json.NewDecoder(resp.Body).Decode` into a chat response. -/
  decodeChatResponse : String → Except String OllamaChatResponse
  /-- The call `json.Unmarshal` of one line into a chat response. -/
  unmarshalChatResponse : String → Except String OllamaChatResponse
  /-- The call `json.NewDecoder(resp.Body).Decode` into a generate response. -/
  decodeGenerateResponse : String → Except String OllamaGenerateResponse
  /-- The call `json.NewDecoder(resp.Body).Decode` into a model listing. -/
  decodeModelsResponse : String → Except String OllamaModelsResponse
  /-- The tokens `bufio.Scanner` yields on a response body until `Scan` returns false. -/
  scanLines : String → List String
  /-- The formatting `fmt.Sprintf("%v", ·)`. -/
  sprintV : GoValue → String
  /-- The successive readings of `time.Now()` within one service call. -/
  now : Nat → Time

/-! ## `services/ollama.go` -/

structure OllamaService where
  config : Config
deriving DecidableEq, Repr

/-- The function `generateID`, at a reading of the clock. -/
def generateID (t : Time) : String :=
  "chatcmpl-" ++ toString t.UnixNano

/-- The function `estimateTokens`: the builtin `len` counts the bytes of the string. -/
def estimateTokens (text : String) : Int :=
  (text.utf8ByteSize : Int) / 4

/-- The function `formatMessages`, the builder being the accumulated string. -/
def formatMessages (sprintV : GoValue → String) (messages : List ChatMessage) : String :=
  messages.foldl
    (fun result msg => result ++ (msg.Role ++ ": " ++ msg.GetContentAsString sprintV ++ "\n")) ""

/-- The method `convertMessagesForOllama`. -/
def OllamaService.convertMessagesForOllama (_s : OllamaService) (sprintV : GoValue → String)
    (messages : List ChatMessage) : List ChatMessage :=
  messages.map fun msg =>
    { Role := msg.Role, Content := .string (msg.GetContentAsString sprintV), Name := msg.Name }

/-- One iteration of the loop over a `[]interface{}` stop value. -/
def appendStop (stopStrings : List String) (s : GoValue) : List String :=
  match s with
  | .string str => stopStrings ++ [str]
  | _ => stopStrings

/-- The zero value `&models.OllamaOptions{}`. -/
def OllamaOptions.zero : OllamaOptions :=
  { Temperature := none, TopP := none, TopK := none, NumPredict := none, Stop := none,
    PresencePenalty := none, FrequencyPenalty := none }

/-- The method `convertOptions`. -/
def OllamaService.convertOptions (_s : OllamaService) (req : ChatCompletionRequest) :
    OllamaOptions :=
  let options := OllamaOptions.zero
  let options :=
    if req.Temperature.isSome then { options with Temperature := req.Temperature } else options
  let options := if req.TopP.isSome then { options with TopP := req.TopP } else options
  let options :=
    if req.MaxTokens.isSome then { options with NumPredict := req.MaxTokens } else options
  let options :=
    if req.PresencePenalty.isSome then
      { options with PresencePenalty := req.PresencePenalty }
    else options
  let options :=
    if req.FrequencyPenalty.isSome then
      { options with FrequencyPenalty := req.FrequencyPenalty }
    else options
  let options :=
    if !req.Stop.isNil then
      match req.Stop with
      | .string stop => { options with Stop := some [stop] }
      | .stringSlice stop => { options with Stop := some stop }
      | .slice stop => { options with Stop := some (stop.foldl appendStop []) }
      | _ => options
    else options
  options

/-- The method `convertOptionsFromCompletion`. -/
def OllamaService.convertOptionsFromCompletion (_s : OllamaService) (req : CompletionRequest) :
    OllamaOptions :=
  let options := OllamaOptions.zero
  let options :=
    if req.Temperature.isSome then { options with Temperature := req.Temperature } else options
  let options := if req.TopP.isSome then { options with TopP := req.TopP } else options
  let options :=
    if req.MaxTokens.isSome then { options with NumPredict := req.MaxTokens } else options
  let options :=
    if req.PresencePenalty.isSome then
      { options with PresencePenalty := req.PresencePenalty }
    else options
  let options :=
    if req.FrequencyPenalty.isSome then
      { options with FrequencyPenalty := req.FrequencyPenalty }
    else options
  let options :=
    if !req.Stop.isNil then
      match req.Stop with
      | .string stop => { options with Stop := some [stop] }
      | .stringSlice stop => { options with Stop := some stop }
      | .slice stop => { options with Stop := some (stop.foldl appendStop []) }
      | _ => options
    else options
  options

/-- The method `ChatCompletion`, with the backend calls it issued. -/
def OllamaService.ChatCompletion (w : World) (s : OllamaService) (req : ChatCompletionRequest) :
    Except String ChatCompletionResponse × List BackendCall :=
  let modelName := if req.Model = "" then s.config.OllamaModel else req.Model
  let ollamaMessages := s.convertMessagesForOllama w.sprintV req.Messages
  let ollamaReq : OllamaChatRequest :=
    { Model := modelName, Messages := ollamaMessages, Stream := false,
      Options := some (s.convertOptions req) }
  match w.marshalChatRequest ollamaReq with
  | .error err => (.error ("failed to marshal request: " ++ err), [])
  | .ok jsonData =>
    let url := s.config.OllamaURL ++ "/api/chat"
    let calls := [BackendCall.post url "application/json" jsonData]
    match w.post url "application/json" jsonData with
    | .error err => (.error ("failed to make request to Ollama: " ++ err), calls)
    | .ok resp =>
      if resp.StatusCode ≠ 200 then
        (.error ("Ollama API error: " ++ resp.Body), calls)
      else
        match w.decodeChatResponse resp.Body with
        | .error err => (.error ("failed to decode Ollama response: " ++ err), calls)
        | .ok ollamaResp =>
          (.ok
            { ID := generateID (w.now 0)
              Object := "chat.completion"
              Created := (w.now 1).Unix
              Model := req.Model
              Choices := [{ Index := 0, Message := ollamaResp.Message, FinishReason := "stop" }]
              Usage :=
                { PromptTokens := estimateTokens (formatMessages w.sprintV req.Messages)
                  CompletionTokens :=
                    estimateTokens (ollamaResp.Message.GetContentAsString w.sprintV)
                  TotalTokens :=
                    estimateTokens (formatMessages w.sprintV req.Messages) +
                      estimateTokens (ollamaResp.Message.GetContentAsString w.sprintV) } },
            calls)

/-- The assignment `streamResp.Choices[0].FinishReason = stringPtr("stop")`. -/
def setFinishReason (streamResp : ChatCompletionStreamResponse) (reason : String) :
    ChatCompletionStreamResponse :=
  match streamResp.Choices with
  | [] => streamResp
  | c :: cs => { streamResp with Choices := { c with FinishReason := some reason } :: cs }

/-- The `for scanner.Scan()` loop of the streaming goroutine: the strings sent on the channel,
in order, for the lines still to be scanned. -/
def streamLoop (w : World) (id : String) (created : Int) (req : ChatCompletionRequest) :
    List String → List String
  | [] => []
  | line :: rest =>
    if line = "" then streamLoop w id created req rest
    else
      match w.unmarshalChatResponse line with
      | .error _ => streamLoop w id created req rest
      | .ok ollamaResp =>
        let streamResp : ChatCompletionStreamResponse :=
          { ID := id
            Object := "chat.completion.chunk"
            Created := created
            Model := req.Model
            Choices :=
              [{ Index := 0
                 Delta := { Role := "", Content := ollamaResp.Message.GetContentAsString w.sprintV }
                 FinishReason := none }] }
        let streamResp := if ollamaResp.Done then setFinishReason streamResp "stop" else streamResp
        match w.marshalStreamResponse streamResp with
        | .error _ => streamLoop w id created req rest
        | .ok jsonData =>
          let sent := "data: " ++ jsonData ++ "\n\n"
          if ollamaResp.Done then [sent, "data: [DONE]\n\n"]
          else sent :: streamLoop w id created req rest

/-- The goroutine started by `ChatCompletionStream` on the body of the backend response:
everything it sends on the channel before closing it. -/
def streamGoroutine (w : World) (req : ChatCompletionRequest) (body : String) : List String :=
  let id := generateID (w.now 0)
  let created := (w.now 1).Unix
  streamLoop w id created req (w.scanLines body)

/-- The method `ChatCompletionStream`: the channel is the list of strings sent on it. -/
def OllamaService.ChatCompletionStream (w : World) (s : OllamaService)
    (req : ChatCompletionRequest) : Except String (List String) × List BackendCall :=
  let modelName := if req.Model = "" then s.config.OllamaModel else req.Model
  let ollamaMessages := s.convertMessagesForOllama w.sprintV req.Messages
  let ollamaReq : OllamaChatRequest :=
    { Model := modelName, Messages := ollamaMessages, Stream := true,
      Options := some (s.convertOptions req) }
  match w.marshalChatRequest ollamaReq with
  | .error err => (.error ("failed to marshal request: " ++ err), [])
  | .ok jsonData =>
    let url := s.config.OllamaURL ++ "/api/chat"
    let calls := [BackendCall.post url "application/json" jsonData]
    match w.post url "application/json" jsonData with
    | .error err => (.error ("failed to make request to Ollama: " ++ err), calls)
    | .ok resp =>
      if resp.StatusCode ≠ 200 then
        (.error ("Ollama API error: " ++ resp.Body), calls)
      else
        (.ok (streamGoroutine w req resp.Body), calls)

/-- The method `Completion`, with the backend calls it issued. -/
def OllamaService.Completion (w : World) (s : OllamaService) (req : CompletionRequest) :
    Except String CompletionResponse × List BackendCall :=
  let prompt? : Option String :=
    match req.Prompt with
    | .string p => some p
    | .stringSlice p => some (stringsJoin p "\n")
    | _ => none
  match prompt? with
  | none => (.error "unsupported prompt type", [])
  | some prompt =>
    let ollamaReq : OllamaGenerateRequest :=
      { Model := s.config.OllamaModel, Prompt := prompt, Stream := false,
        Options := some (s.convertOptionsFromCompletion req) }
    match w.marshalGenerateRequest ollamaReq with
    | .error err => (.error ("failed to marshal request: " ++ err), [])
    | .ok jsonData =>
      let url := s.config.OllamaURL ++ "/api/generate"
      let calls := [BackendCall.post url "application/json" jsonData]
      match w.post url "application/json" jsonData with
      | .error err => (.error ("failed to make request to Ollama: " ++ err), calls)
      | .ok resp =>
        if resp.StatusCode ≠ 200 then
          (.error ("Ollama API error: " ++ resp.Body), calls)
        else
          match w.decodeGenerateResponse resp.Body with
          | .error err => (.error ("failed to decode Ollama response: " ++ err), calls)
          | .ok ollamaResp =>
            (.ok
              { ID := generateID (w.now 0)
                Object := "text_completion"
                Created := (w.now 1).Unix
                Model := req.Model
                Choices :=
                  [{ Text := ollamaResp.Response, Index := 0, Logprobs := none,
                     FinishReason := "stop" }]
                Usage :=
                  { PromptTokens := estimateTokens prompt
                    CompletionTokens := estimateTokens ollamaResp.Response
                    TotalTokens :=
                      estimateTokens prompt + estimateTokens ollamaResp.Response } },
              calls)

/-- The loop of `GetModels` over the backend models, the clock being read once per model. -/
def modelsLoop (w : World) (tick : Nat) : List OllamaModel → List Model
  | [] => []
  | model :: rest =>
    { ID := model.Name, Object := "model", Created := (w.now tick).Unix, OwnedBy := "ollama" } ::
      modelsLoop w (tick + 1) rest

/-- The method `GetModels`, with the backend calls it issued. -/
def OllamaService.GetModels (w : World) (s : OllamaService) :
    Except String ModelsResponse × List BackendCall :=
  let url := s.config.OllamaURL ++ "/api/tags"
  let calls := [BackendCall.get url]
  match w.get url with
  | .error err => (.error ("failed to get models from Ollama: " ++ err), calls)
  | .ok resp =>
    if resp.StatusCode ≠ 200 then
      (.error ("Ollama API error: " ++ resp.Body), calls)
    else
      match w.decodeModelsResponse resp.Body with
      | .error err => (.error ("failed to decode Ollama response: " ++ err), calls)
      | .ok ollamaResp =>
        (.ok { Object := "list", Data := modelsLoop w 0 ollamaResp.Models }, calls)

/-! ## `handlers` -/

/-- The value a handler serialises as the body of its response. -/
inductive ResponseBody where
  | error (e : ErrorResponse)
  | chat (r : ChatCompletionResponse)
  | completion (r : CompletionResponse)
  | models (r : ModelsResponse)
  | stream (chunks : List String)

/-- What a handler leaves behind: the response, the headers it set in order, and the calls
made to the backend while it ran. Log lines are not part of the response and are left out. -/
structure HandlerResult where
  Status : Int
  Headers : List (String × String)
  Body : ResponseBody
  Calls : List BackendCall

/-- The fiber call `c.Status(status).JSON(body)` after the headers `headers` were set. -/
def respondJSON (headers : List (String × String)) (status : Int) (body : ResponseBody)
    (calls : List BackendCall) : HandlerResult :=
  { Status := status, Headers := headers ++ [("Content-Type", "application/json")],
    Body := body, Calls := calls }

structure ChatHandler where
  ollamaService : OllamaService
deriving DecidableEq, Repr

structure CompletionsHandler where
  ollamaService : OllamaService
deriving DecidableEq, Repr

structure ModelsHandler where
  ollamaService : OllamaService
deriving DecidableEq, Repr

/-- The method `handleStreamingChat`; the body stream writer forwards every string received
from the channel. -/
def ChatHandler.handleStreamingChat (w : World) (h : ChatHandler) (req : ChatCompletionRequest) :
    HandlerResult :=
  let headers :=
    [("Content-Type", "text/event-stream"), ("Cache-Control", "no-cache"),
     ("Connection", "keep-alive"), ("Access-Control-Allow-Origin", "*"),
     ("Access-Control-Allow-Headers", "Cache-Control")]
  match h.ollamaService.ChatCompletionStream w req with
  | (.error _, calls) =>
    respondJSON headers 500
      (.error
        { Error :=
            { Message := "Internal server error", Type_ := "internal_error",
              Code := "ollama_stream_error" } })
      calls
  | (.ok streamChan, calls) =>
    { Status := 200, Headers := headers, Body := .stream streamChan, Calls := calls }

/-- The method `ChatCompletions`; `parsed` is the outcome of `c.BodyParser(&req)`. -/
def ChatHandler.ChatCompletions (w : World) (h : ChatHandler)
    (parsed : Except String ChatCompletionRequest) : HandlerResult :=
  match parsed with
  | .error err =>
    respondJSON [] 400
      (.error
        { Error :=
            { Message := "Invalid request body: " ++ err, Type_ := "invalid_request_error",
              Code := "invalid_json" } })
      []
  | .ok req =>
    if req.Model = "" then
      respondJSON [] 400
        (.error
          { Error :=
              { Message := "Model is required", Type_ := "invalid_request_error",
                Code := "missing_model" } })
        []
    else if req.Messages.length = 0 then
      respondJSON [] 400
        (.error
          { Error :=
              { Message := "Messages are required", Type_ := "invalid_request_error",
                Code := "missing_messages" } })
        []
    else if req.Stream = some true then
      h.handleStreamingChat w req
    else
      match h.ollamaService.ChatCompletion w req with
      | (.error _, calls) =>
        respondJSON [] 500
          (.error
            { Error :=
                { Message := "Internal server error", Type_ := "internal_error",
                  Code := "ollama_error" } })
          calls
      | (.ok resp, calls) => respondJSON [] 200 (.chat resp) calls

/-- The method `Completions`; `parsed` is the outcome of `c.BodyParser(&req)`. -/
def CompletionsHandler.Completions (w : World) (h : CompletionsHandler)
    (parsed : Except String CompletionRequest) : HandlerResult :=
  match parsed with
  | .error _ =>
    respondJSON [] 400
      (.error
        { Error :=
            { Message := "Invalid request body", Type_ := "invalid_request_error",
              Code := "invalid_json" } })
      []
  | .ok req =>
    if req.Model = "" then
      respondJSON [] 400
        (.error
          { Error :=
              { Message := "Model is required", Type_ := "invalid_request_error",
                Code := "missing_model" } })
        []
    else if req.Prompt.isNil then
      respondJSON [] 400
        (.error
          { Error :=
              { Message := "Prompt is required", Type_ := "invalid_request_error",
                Code := "missing_prompt" } })
        []
    else
      match h.ollamaService.Completion w req with
      | (.error _, calls) =>
        respondJSON [] 500
          (.error
            { Error :=
                { Message := "Internal server error", Type_ := "internal_error",
                  Code := "ollama_error" } })
          calls
      | (.ok resp, calls) => respondJSON [] 200 (.completion resp) calls

/-- The method `GetModels` of the models handler. -/
def ModelsHandler.GetModels (w : World) (h : ModelsHandler) : HandlerResult :=
  match h.ollamaService.GetModels w with
  | (.error _, calls) =>
    respondJSON [] 500
      (.error
        { Error :=
            { Message := "Internal server error", Type_ := "internal_error",
              Code := "ollama_error" } })
      calls
  | (.ok resp, calls) => respondJSON [] 200 (.models resp) calls

/-! ## Specification-side definitions

These follow the wording of the specification and are compared with the code above. -/

/-- The fragment an element of a content sequence contributes, if any: the element itself
when it is a string, the value of its `text` field when it is an object whose `text` is a
string. -/
def textFragment : GoValue → Option String
  | .string s => some s
  | .map kvs =>
    match mapIndex kvs "text" with
    | some (.string t) => some t
    | _ => none
  | _ => none

/-- The fragments joined with exactly one separator between consecutive fragments. -/
def joinWith (sep : String) : List String → String
  | [] => ""
  | [a] => a
  | a :: b :: rest => a ++ sep ++ joinWith sep (b :: rest)

/-- The number of characters of a string divided by four, rounded down. -/
def charactersOverFour (s : String) : Int :=
  (s.length : Int) / 4

/-- The string an element of a stop list stands for, when it is string-typed. -/
def stringElement : GoValue → Option String
  | .string s => some s
  | _ => none

/-- Stop-sequence normalization: a single string becomes a one-element list, a list of strings
passes through, a generic list keeps its string-typed elements in order; any other value gives
no stop list. -/
def normalizeStop : GoValue → Option (List String)
  | .string x => some [x]
  | .stringSlice l => some l
  | .slice xs => some (xs.filterMap stringElement)
  | _ => none

/-- The dynamic types of a stop value that the option converters recognise. -/
def stopRecognised : GoValue → Bool
  | .string _ => true
  | .stringSlice _ => true
  | .slice _ => true
  | _ => false

/-- The backend chunks of a stream: one per non-empty line that parses as a chat response. -/
def parsedChunks (w : World) (lines : List String) : List OllamaChatResponse :=
  lines.filterMap fun line =>
    if line = "" then none else (w.unmarshalChatResponse line).toOption

/-- The framing `data: <json>\n\n` of one emitted unit. -/
def frame (json : String) : String :=
  "data: " ++ json ++ "\n\n"

/-- The terminal sentinel. -/
def doneSentinel : String :=
  "data: [DONE]\n\n"

/-- The streaming delta with one choice, of index 0, carrying `content`. -/
def deltaEnvelope (id : String) (created : Int) (model : String) (content : String)
    (finish : Option String) : ChatCompletionStreamResponse :=
  { ID := id, Object := "chat.completion.chunk", Created := created, Model := model,
    Choices :=
      [{ Index := 0, Delta := { Role := "", Content := content }, FinishReason := finish }] }

/-- The delta of a backend chunk within the stream answering `req`: it carries the canonicalized
content of the chunk. -/
def chunkDelta (w : World) (id : String) (created : Int) (req : ChatCompletionRequest)
    (finish : Option String) (c : OllamaChatResponse) : ChatCompletionStreamResponse :=
  deltaEnvelope id created req.Model (c.Message.GetContentAsString w.sprintV) finish

/-- A prompt that is present but is neither a string nor a list of strings: a boolean, a
number, an object, or a list with an element that is not a string. -/
def unsupportedPrompt : GoValue → Bool
  | .bool _ => true
  | .float64 _ => true
  | .map _ => true
  | .slice xs => xs.any fun x => (stringElement x).isNone
  | _ => false

/-- The error envelope of a backend-call failure. -/
def internalError (code : String) : ResponseBody :=
  .error { Error := { Message := "Internal server error", Type_ := "internal_error", Code := code } }

/-- The error envelope of a rejected request. -/
def invalidRequest (message code : String) : ResponseBody :=
  .error { Error := { Message := message, Type_ := "invalid_request_error", Code := code } }

/-- The prompt text of a chat request: the concatenation, in order, of
`role: canonical content` followed by a newline, one per message. -/
def promptText (w : World) : List ChatMessage → String
  | [] => ""
  | m :: rest => m.Role ++ ": " ++ m.GetContentAsString w.sprintV ++ "\n" ++ promptText w rest

/-- The chat request sent to the backend under the model name `modelName`. -/
def ollamaChatRequest (w : World) (s : OllamaService) (req : ChatCompletionRequest)
    (modelName : String) (stream : Bool) : OllamaChatRequest :=
  { Model := modelName, Messages := s.convertMessagesForOllama w.sprintV req.Messages,
    Stream := stream, Options := some (s.convertOptions req) }

/-- The chunks of a stream up to and including the first one marked done. -/
def upToFirstDone : List OllamaChatResponse → List OllamaChatResponse
  | [] => []
  | c :: rest => if c.Done then [c] else c :: upToFirstDone rest

/-- The envelope of a chunk: its delta, with finish reason `stop` when the chunk is marked done
and none otherwise. -/
def chunkEnvelope (w : World) (id : String) (created : Int) (req : ChatCompletionRequest)
    (c : OllamaChatResponse) : ChatCompletionStreamResponse :=
  chunkDelta w id created req (if c.Done then some "stop" else none) c

/-- What follows the envelopes of a stream: the terminal sentinel when a chunk is marked done. -/
def streamTail (chunks : List OllamaChatResponse) : List String :=
  if chunks.any (fun c => c.Done) then [doneSentinel] else []

/-- A backend line that carries no chunk: an empty line, or one that fails to parse. -/
def isNoise (w : World) (line : String) : Bool :=
  line == "" || (w.unmarshalChatResponse line).toOption.isNone

/-- The calls made for a chat request `r` to the backend: one POST of its serialization to
`/api/chat`, none when it cannot be serialized. -/
def chatCalls (w : World) (s : OllamaService) (r : OllamaChatRequest) : List BackendCall :=
  match w.marshalChatRequest r with
  | .ok jsonData =>
    [BackendCall.post (s.config.OllamaURL ++ "/api/chat") "application/json" jsonData]
  | .error _ => []

/-! ## Concrete inputs -/

/-- A service configured as by `config.Load` with no environment set. -/
def defaultService : OllamaService :=
  { config :=
      { Port := "8080", APIKey := "sk-your-secret-api-key-here",
        OllamaURL := "http://localhost:11434", OllamaModel := "llama3.2:latest" } }

/-- The chat request `{"model":"x","messages":[{"role":"user","content":"hi"}],"stop":5}`. -/
def chatRequestNumberStop : ChatCompletionRequest :=
  { Model := "x", Messages := [{ Role := "user", Content := .string "hi", Name := "" }],
    MaxTokens := none, Temperature := none, TopP := none, N := none, Stream := none,
    Stop := decodeInterface (.number ⟨5⟩), PresencePenalty := none, FrequencyPenalty := none,
    LogitBias := [], User := "" }

/-- A line scanner: the body is cut at every newline, a final unterminated line is kept when
it is not empty. -/
def sampleScan (cur : List Char) : List Char → List String
  | [] => if cur.isEmpty then [] else [String.mk cur.reverse]
  | c :: cs =>
    if c = Char.ofNat 10 then String.mk cur.reverse :: sampleScan [] cs
    else sampleScan (c :: cur) cs

/-- A line decoder: `ping` is keep-alive noise, `end` the done chunk, any other line a chunk
whose content is the line. -/
def sampleUnmarshal (line : String) : Except String OllamaChatResponse :=
  if line = "ping" then .error "invalid character"
  else if line = "end" then
    .ok
      { Model := "m", CreatedAt := "",
        Message := { Role := "assistant", Content := .string "", Name := "" }, Done := true }
  else
    .ok
      { Model := "m", CreatedAt := "",
        Message := { Role := "assistant", Content := .string line, Name := "" }, Done := false }

/-- A rendering of a streaming envelope that shows its id, contents and finish reasons. -/
def sampleMarshal (r : ChatCompletionStreamResponse) : String :=
  "json(" ++ r.ID ++ "|" ++
    String.join (r.Choices.map fun c => c.Delta.Content ++ "|" ++ c.FinishReason.getD "null") ++
    ")"

/-- A backend that answers every chat request with the stream `Hel`, an empty line, `ping`,
`lo`, `end`, and a line after the done chunk, and whose model listing is unreachable. -/
def sampleWorld : World :=
  { post := fun _ _ _ => .ok { StatusCode := 200, Body := "Hel\n\nping\nlo\nend\nlate" }
    get := fun _ => .error "connection refused"
    marshalChatRequest := fun r => .ok r.Model
    marshalGenerateRequest := fun r => .ok r.Prompt
    marshalStreamResponse := fun r => .ok (sampleMarshal r)
    decodeChatResponse := sampleUnmarshal
    unmarshalChatResponse := sampleUnmarshal
    decodeGenerateResponse := fun b =>
      .ok { Model := "m", CreatedAt := "", Response := b, Done := true }
    decodeModelsResponse := fun _ => .ok { Models := [] }
    scanLines := fun b => sampleScan [] b.data
    sprintV := fun _ => "<nil>"
    now := fun n => { Unix := 1700000000, UnixNano := 1700000000000000000 + n } }

/-- The chunk the sample decoder yields for a line of content. -/
def sampleChunk (content : String) (done : Bool) : OllamaChatResponse :=
  { Model := "m", CreatedAt := "",
    Message := { Role := "assistant", Content := .string content, Name := "" }, Done := done }

/-- The completion request with the given model and prompt and no option set. -/
def completionRequest (model : String) (prompt : GoValue) : CompletionRequest :=
  { Model := model, Prompt := prompt, MaxTokens := none, Temperature := none, TopP := none,
    N := none, Stream := none, Logprobs := none, Echo := none, Stop := .nil,
    PresencePenalty := none, FrequencyPenalty := none, BestOf := none, User := "" }

/-- The chat request with the given model, messages and stream flag and no option set. -/
def chatRequest (model : String) (messages : List ChatMessage) (stream : Option Bool) :
    ChatCompletionRequest :=
  { Model := model, Messages := messages, MaxTokens := none, Temperature := none, TopP := none,
    N := none, Stream := stream, Stop := .nil, PresencePenalty := none,
    FrequencyPenalty := none, LogitBias := [], User := "" }

/-- A backend that cannot be reached, failing with the given error text. -/
def unreachableWorld (detail : String) : World :=
  { sampleWorld with
    post := fun _ _ _ => .error detail
    get := fun _ => .error detail }

/-- A backend that answers every request with status 200 and the body `reply`, decoded as
a finished assistant message whose content is the body. -/
def replyWorld (reply : String) : World :=
  { sampleWorld with
    post := fun _ _ _ => .ok { StatusCode := 200, Body := reply }
    decodeChatResponse := fun b =>
      .ok
        { Model := "m", CreatedAt := "",
          Message := { Role := "assistant", Content := .string b, Name := "" }, Done := true } }

/-- The world `w` with a backend that answers every POST with status 200 and the body `body`. -/
def withBody (w : World) (body : String) : World :=
  { w with post := fun _ _ _ => .ok { StatusCode := 200, Body := body } }

/-- A line decoder: a line that starts with `x` does not parse, `end` is the done chunk, any
other line a chunk whose content is the line. -/
def scannerUnmarshal (line : String) : Except String OllamaChatResponse :=
  if line.data.head? = some 'x' then .error "invalid character"
  else if line = "end" then .ok (sampleChunk "" true)
  else .ok (sampleChunk line false)

/-- A backend that answers every chat request with status 200 and the body `body`, read by
the line scanner of the library and decoded by `scannerUnmarshal`. -/
def scannerWorld (body : String) : World :=
  { sampleWorld with
    post := fun _ _ _ => .ok { StatusCode := 200, Body := body }
    unmarshalChatResponse := scannerUnmarshal
    scanLines := bufioScanLines }

/-- A line of `MaxScanTokenSize` bytes that parses as a chunk. -/
def longChunkLine : List Char :=
  List.replicate MaxScanTokenSize 'a'

/-- A line of `MaxScanTokenSize` bytes that does not parse. -/
def longNoiseLine : List Char :=
  List.replicate MaxScanTokenSize 'x'

/-- The body whose lines are `longChunkLine` and the done chunk `end`. -/
def longChunkBody : String :=
  String.mk (longChunkLine ++ Char.ofNat 10 :: "end".data)

/-- The body whose lines are `Hel`, `longChunkLine` and the done chunk `end`. -/
def longMiddleBody : String :=
  String.mk ("Hel".data ++ Char.ofNat 10 :: (longChunkLine ++ Char.ofNat 10 :: "end".data))

/-- The body whose lines are `Hel`, `longNoiseLine` and the done chunk `end`. -/
def longNoiseBody : String :=
  String.mk ("Hel".data ++ Char.ofNat 10 :: (longNoiseLine ++ Char.ofNat 10 :: "end".data))

/-! ## Library lemmas -/

theorem joinLoop_eq (sep : String) (b x : String) (rest : List String) :
    joinLoop sep b (x :: rest) = b ++ sep ++ joinWith sep (x :: rest) := by
  induction rest generalizing b x with
  | nil => simp [joinLoop, joinWith]
  | cons y ys ih =>
    rw [joinLoop, ih, joinWith]
    simp [String.append_assoc]

theorem stringsJoin_eq (elems : List String) (sep : String) :
    stringsJoin elems sep = joinWith sep elems := by
  match elems with
  | [] => rfl
  | [e] => rfl
  | e :: x :: rest =>
    show joinLoop sep e (x :: rest) = _
    rw [joinLoop_eq, joinWith]

/-! ## Content canonicalization -/

theorem appendPart_eq (parts : List String) (part : GoValue) :
    appendPart parts part = parts ++ (textFragment part).toList := by
  cases part with
  | map kvs =>
    simp only [appendPart, textFragment]
    cases h : mapIndex kvs "text" with
    | none => simp
    | some v => cases v <;> simp
  | _ => simp [appendPart, textFragment]

theorem foldl_appendPart (parts : List String) (content : List GoValue) :
    content.foldl appendPart parts = parts ++ content.filterMap textFragment := by
  induction content generalizing parts with
  | nil => simp
  | cons x xs ih =>
    rw [List.foldl_cons, ih, appendPart_eq]
    cases h : textFragment x <;> simp [List.filterMap_cons, h]

/-- C3: for content that is an ordered sequence, `GetContentAsString` returns the recognized
fragments (string elements and string-valued `text` fields) in element order with exactly one
space between consecutive fragments, other elements contributing nothing; for a list of
strings it is the space-joined list; for content that is a string it is that string. -/
theorem GetContentAsString_canonical (sprintV : GoValue → String) (role name : String)
    (xs : List GoValue) (ss : List String) (s : String) :
    ChatMessage.GetContentAsString sprintV ⟨role, .slice xs, name⟩ =
        joinWith " " (xs.filterMap textFragment) ∧
      ChatMessage.GetContentAsString sprintV ⟨role, .slice (ss.map GoValue.string), name⟩ =
        joinWith " " ss ∧
      ChatMessage.GetContentAsString sprintV ⟨role, .stringSlice ss, name⟩ = joinWith " " ss ∧
      ChatMessage.GetContentAsString sprintV ⟨role, .string s, name⟩ = s := by
  refine ⟨?_, ?_, ?_, rfl⟩
  · simp [ChatMessage.GetContentAsString, foldl_appendPart, stringsJoin_eq]
  · have h : (ss.map GoValue.string).filterMap textFragment = ss := by
      induction ss with
      | nil => rfl
      | cons a as ih => simp [List.filterMap_cons, textFragment, ih]
    simp [ChatMessage.GetContentAsString, foldl_appendPart, stringsJoin_eq, h]
  · simp [ChatMessage.GetContentAsString, stringsJoin_eq]



/-! ## Token estimate -/

theorem utf8Size_ascii (c : Char) (h : c.toNat < 128) : c.utf8Size = 1 := by
  have h1 : c.val ≤ 0x7F := by
    rw [UInt32.le_def]
    show c.val.toNat ≤ 127
    have : c.toNat = c.val.toNat := rfl
    omega
  simp [Char.utf8Size, h1]

theorem utf8ByteSize_go_bounds (cs : List Char) :
    cs.length ≤ String.utf8ByteSize.go cs ∧ String.utf8ByteSize.go cs ≤ 4 * cs.length := by
  induction cs with
  | nil => simp [String.utf8ByteSize.go]
  | cons c cs ih =>
    have h1 := Char.utf8Size_pos c
    have h2 := Char.utf8Size_le_four c
    simp only [String.utf8ByteSize.go, List.length_cons]
    omega

theorem utf8ByteSize_go_ascii (cs : List Char) (h : ∀ c ∈ cs, c.toNat < 128) :
    String.utf8ByteSize.go cs = cs.length := by
  induction cs with
  | nil => simp [String.utf8ByteSize.go]
  | cons c cs ih =>
    simp only [String.utf8ByteSize.go, List.length_cons]
    rw [ih (fun x hx => h x (List.mem_cons_of_mem _ hx)),
      utf8Size_ascii c (h c (List.mem_cons_self _ _))]

/-- C10, as stated, fails: on the four-character string "éééé" (eight bytes) the estimate is 2,
not the number of characters divided by four, which is 1. -/
theorem estimateTokens_not_characters :
    estimateTokens "éééé" = 2 ∧ charactersOverFour "éééé" = 1 ∧
      estimateTokens "éééé" ≠ charactersOverFour "éééé" := by
  decide

/-- C10, amended: `estimateTokens s` is the number of bytes of `s` divided by four, rounded
down; it lies between a quarter of the number of characters and the number of characters, and
equals the number of characters divided by four when every character of `s` is ASCII; the
estimate of the empty string is 0, and equal strings have equal estimates. -/
theorem estimateTokens_bytes (s t : String) :
    estimateTokens s = ((s.utf8ByteSize / 4 : Nat) : Int) ∧
      charactersOverFour s ≤ estimateTokens s ∧ estimateTokens s ≤ (s.length : Int) ∧
      ((∀ c ∈ s.data, c.toNat < 128) → estimateTokens s = charactersOverFour s) ∧
      estimateTokens "" = 0 ∧ (s = t → estimateTokens s = estimateTokens t) := by
  obtain ⟨cs⟩ := s
  have hb := utf8ByteSize_go_bounds cs
  refine ⟨?_, ?_, ?_, ?_, by decide, fun h => by rw [h]⟩
  · simp only [estimateTokens]
    norm_cast
  · simp only [estimateTokens, charactersOverFour, String.utf8ByteSize, String.length]
    norm_cast
    omega
  · simp only [estimateTokens, String.utf8ByteSize, String.length]
    norm_cast
    omega
  · intro h
    simp only [estimateTokens, charactersOverFour, String.utf8ByteSize, String.length]
    rw [utf8ByteSize_go_ascii cs h]

/-! ## Option mapping -/

theorem foldl_appendStop (acc : List String) (stop : List GoValue) :
    stop.foldl appendStop acc = acc ++ stop.filterMap stringElement := by
  induction stop generalizing acc with
  | nil => simp
  | cons x xs ih =>
    rw [List.foldl_cons, ih]
    cases x <;> simp [appendStop, stringElement, List.filterMap_cons]

theorem filterMap_stringElement_strings (l : List String) :
    (l.map GoValue.string).filterMap stringElement = l := by
  induction l with
  | nil => rfl
  | cons a as ih => simp [List.filterMap_cons, stringElement, ih]

theorem decodeElements_strings (l : List String) :
    decodeElements (l.map JSON.string) = l.map GoValue.string := by
  induction l with
  | nil => simp [decodeElements]
  | cons a as ih => simp [decodeElements, decodeInterface, ih]

theorem convertOptions_eq (s : OllamaService) (req : ChatCompletionRequest) :
    s.convertOptions req =
      { Temperature := req.Temperature, TopP := req.TopP, TopK := none,
        NumPredict := req.MaxTokens, Stop := normalizeStop req.Stop,
        PresencePenalty := req.PresencePenalty, FrequencyPenalty := req.FrequencyPenalty } := by
  obtain ⟨_, _, mt, te, tp, _, _, st, pp, fp, _, _⟩ := req
  cases mt <;> cases te <;> cases tp <;> cases pp <;> cases fp <;> cases st <;>
    simp [OllamaService.convertOptions, OllamaOptions.zero, normalizeStop, GoValue.isNil,
      foldl_appendStop]

theorem convertOptionsFromCompletion_eq (s : OllamaService) (req : CompletionRequest) :
    s.convertOptionsFromCompletion req =
      { Temperature := req.Temperature, TopP := req.TopP, TopK := none,
        NumPredict := req.MaxTokens, Stop := normalizeStop req.Stop,
        PresencePenalty := req.PresencePenalty, FrequencyPenalty := req.FrequencyPenalty } := by
  obtain ⟨_, _, mt, te, tp, _, _, _, _, st, pp, fp, _, _⟩ := req
  cases mt <;> cases te <;> cases tp <;> cases pp <;> cases fp <;> cases st <;>
    simp [OllamaService.convertOptionsFromCompletion, OllamaOptions.zero, normalizeStop,
      GoValue.isNil, foldl_appendStop]

/-- C4: in `convertOptions` and `convertOptionsFromCompletion` a stop value that is a single
string `x` yields the stop list `[x]`; a list of strings (as decoded from JSON, or a Go
`[]string`) yields the same list; a list of mixed elements yields the sub-list of its
string-typed elements in their original order, so `["a", 5, "b"]` gives `["a", "b"]`. -/
theorem stop_normalization (s : OllamaService) (req : ChatCompletionRequest)
    (creq : CompletionRequest) (x : String) (l : List String) (xs : List GoValue) :
    ((s.convertOptions { req with Stop := .string x }).Stop = some [x] ∧
      (s.convertOptions { req with Stop := decodeInterface (.array (l.map .string)) }).Stop =
        some l ∧
      (s.convertOptions { req with Stop := .stringSlice l }).Stop = some l ∧
      (s.convertOptions { req with Stop := .slice xs }).Stop =
        some (xs.filterMap stringElement) ∧
      (s.convertOptions
          { req with
            Stop := decodeInterface (.array [.string "a", .number ⟨5⟩, .string "b"]) }).Stop =
        some ["a", "b"]) ∧
    ((s.convertOptionsFromCompletion { creq with Stop := .string x }).Stop = some [x] ∧
      (s.convertOptionsFromCompletion
          { creq with Stop := decodeInterface (.array (l.map .string)) }).Stop = some l ∧
      (s.convertOptionsFromCompletion { creq with Stop := .stringSlice l }).Stop = some l ∧
      (s.convertOptionsFromCompletion { creq with Stop := .slice xs }).Stop =
        some (xs.filterMap stringElement) ∧
      (s.convertOptionsFromCompletion
          { creq with
            Stop := decodeInterface (.array [.string "a", .number ⟨5⟩, .string "b"]) }).Stop =
        some ["a", "b"]) := by
  simp only [convertOptions_eq, convertOptionsFromCompletion_eq, normalizeStop, decodeInterface,
    decodeElements_strings, filterMap_stringElement_strings]
  simp [decodeElements, decodeInterface, stringElement, List.filterMap_cons]

/-- C5, as stated, fails: the request with `"stop": 5` has its stop field present, yet
`convertOptions` leaves the backend stop option unset. -/
theorem convertOptions_stop_present_unset :
    chatRequestNumberStop.Stop.isNil = false ∧
      (defaultService.convertOptions chatRequestNumberStop).Stop = none := by
  constructor <;> rfl

/-- C5, amended: in the result of `convertOptions` and of `convertOptionsFromCompletion` each
of temperature, top_p, num_predict, presence_penalty and frequency_penalty is set exactly when
the request's temperature, top_p, max_tokens, presence_penalty, frequency_penalty is present,
with the request's value; top_k is never set; stop is set exactly when the request's stop is
a string, a list of strings or a generic list (then carrying the normalized list), and is
unset when the request's stop is absent or of any other type. -/
theorem options_copy_only_present (s : OllamaService) (req : ChatCompletionRequest)
    (creq : CompletionRequest) :
    ((s.convertOptions req).Temperature = req.Temperature ∧
      (s.convertOptions req).TopP = req.TopP ∧
      (s.convertOptions req).NumPredict = req.MaxTokens ∧
      (s.convertOptions req).PresencePenalty = req.PresencePenalty ∧
      (s.convertOptions req).FrequencyPenalty = req.FrequencyPenalty ∧
      (s.convertOptions req).TopK = none ∧
      (s.convertOptions req).Stop = normalizeStop req.Stop ∧
      (s.convertOptions req).Stop.isSome = stopRecognised req.Stop ∧
      (req.Stop.isNil = true → (s.convertOptions req).Stop = none)) ∧
    ((s.convertOptionsFromCompletion creq).Temperature = creq.Temperature ∧
      (s.convertOptionsFromCompletion creq).TopP = creq.TopP ∧
      (s.convertOptionsFromCompletion creq).NumPredict = creq.MaxTokens ∧
      (s.convertOptionsFromCompletion creq).PresencePenalty = creq.PresencePenalty ∧
      (s.convertOptionsFromCompletion creq).FrequencyPenalty = creq.FrequencyPenalty ∧
      (s.convertOptionsFromCompletion creq).TopK = none ∧
      (s.convertOptionsFromCompletion creq).Stop = normalizeStop creq.Stop ∧
      (s.convertOptionsFromCompletion creq).Stop.isSome = stopRecognised creq.Stop ∧
      (creq.Stop.isNil = true → (s.convertOptionsFromCompletion creq).Stop = none)) := by
  rw [convertOptions_eq, convertOptionsFromCompletion_eq]
  refine ⟨⟨rfl, rfl, rfl, rfl, rfl, rfl, rfl, ?_, ?_⟩,
    ⟨rfl, rfl, rfl, rfl, rfl, rfl, rfl, ?_, ?_⟩⟩
  · cases req.Stop <;> rfl
  · cases req.Stop <;> simp [GoValue.isNil, normalizeStop]
  · cases creq.Stop <;> rfl
  · cases creq.Stop <;> simp [GoValue.isNil, normalizeStop]

/-! ## Streaming translation -/

theorem frame_ne_doneSentinel (j : String) (h : j ≠ "[DONE]") : frame j ≠ doneSentinel := by
  intro hf
  apply h
  have h2 : doneSentinel = "data: " ++ "[DONE]" ++ "\n\n" := by decide
  rw [h2, frame] at hf
  have h3 := congrArg String.data hf
  simp only [String.data_append] at h3
  exact String.ext (List.append_cancel_left (List.append_cancel_right h3))

theorem parsedChunks_cons (w : World) (line : String) (rest : List String) :
    parsedChunks w (line :: rest) =
      (if line = "" then none else (w.unmarshalChatResponse line).toOption).toList ++
        parsedChunks w rest := by
  simp only [parsedChunks, List.filterMap_cons]
  split <;> simp_all

theorem streamLoop_split (w : World) (id : String) (created : Int) (req : ChatCompletionRequest)
    (json : ChatCompletionStreamResponse → String)
    (hm : ∀ r, w.marshalStreamResponse r = .ok (json r)) (lines : List String) :
    ∀ (pre : List OllamaChatResponse) (c : OllamaChatResponse) (post : List OllamaChatResponse),
      parsedChunks w lines = pre ++ c :: post → (∀ x ∈ pre, x.Done = false) → c.Done = true →
      streamLoop w id created req lines =
        pre.map (fun x => frame (json (chunkDelta w id created req none x))) ++
          [frame (json (chunkDelta w id created req (some "stop") c)), doneSentinel] := by
  induction lines with
  | nil =>
    intro pre c post hp
    simp [parsedChunks] at hp
  | cons line rest ih =>
    intro pre c post hp hn hd
    rw [parsedChunks_cons] at hp
    rw [streamLoop]
    by_cases hl : line = ""
    · simp only [hl, if_true, Option.toList, List.nil_append] at hp ⊢
      exact ih pre c post hp hn hd
    · simp only [hl, if_false] at hp ⊢
      cases hu : w.unmarshalChatResponse line with
      | error e =>
        simp only [hu, Except.toOption, Option.toList, List.nil_append] at hp ⊢
        exact ih pre c post hp hn hd
      | ok r =>
        simp only [hu, Except.toOption, Option.toList, List.singleton_append] at hp ⊢
        cases pre with
        | nil =>
          simp only [List.nil_append, List.cons.injEq] at hp
          obtain ⟨rfl, _⟩ := hp
          simp [hd, hm, setFinishReason, chunkDelta, deltaEnvelope, frame, doneSentinel]
        | cons p pre1 =>
          simp only [List.cons_append, List.cons.injEq] at hp
          obtain ⟨rfl, hp⟩ := hp
          have hr : r.Done = false := hn r (List.mem_cons_self _ _)
          have ih1 := ih pre1 c post hp (fun x hx => hn x (List.mem_cons_of_mem _ hx)) hd
          simp [hr, hm, ih1, chunkDelta, deltaEnvelope, frame]

theorem streamLoop_no_done (w : World) (id : String) (created : Int)
    (req : ChatCompletionRequest) (json : ChatCompletionStreamResponse → String)
    (hm : ∀ r, w.marshalStreamResponse r = .ok (json r)) (lines : List String)
    (hn : ∀ x ∈ parsedChunks w lines, x.Done = false) :
    streamLoop w id created req lines =
      (parsedChunks w lines).map (fun x => frame (json (chunkDelta w id created req none x))) := by
  induction lines with
  | nil => simp [parsedChunks, streamLoop]
  | cons line rest ih =>
    rw [parsedChunks_cons] at hn ⊢
    rw [streamLoop]
    by_cases hl : line = ""
    · simp only [hl, if_true, Option.toList, List.nil_append] at hn ⊢
      exact ih hn
    · simp only [hl, if_false] at hn ⊢
      cases hu : w.unmarshalChatResponse line with
      | error e =>
        simp only [hu, Except.toOption, Option.toList, List.nil_append] at hn ⊢
        exact ih hn
      | ok r =>
        simp only [hu, Except.toOption, Option.toList, List.singleton_append] at hn ⊢
        have hr : r.Done = false := hn r (List.mem_cons_self _ _)
        have ih1 := ih (fun x hx => hn x (List.mem_cons_of_mem _ hx))
        simp [hr, hm, ih1, chunkDelta, deltaEnvelope, frame]

theorem exists_first_done (l : List OllamaChatResponse) (h : ∃ c ∈ l, c.Done = true) :
    ∃ pre c post, l = pre ++ c :: post ∧ (∀ x ∈ pre, x.Done = false) ∧ c.Done = true := by
  induction l with
  | nil => simp at h
  | cons a as ih =>
    by_cases ha : a.Done = true
    · exact ⟨[], a, as, rfl, by simp, ha⟩
    · have h2 : ∃ c ∈ as, c.Done = true := by
        obtain ⟨c, hc, hd⟩ := h
        rcases List.mem_cons.mp hc with rfl | hc
        · exact absurd hd ha
        · exact ⟨c, hc, hd⟩
      obtain ⟨pre, c, post, he, hn, hd⟩ := ih h2
      refine ⟨a :: pre, c, post, by rw [he]; rfl, ?_, hd⟩
      intro x hx
      rcases List.mem_cons.mp hx with rfl | hx
      · simpa using ha
      · exact hn x hx

theorem doneSentinel_not_mem_frames (json : ChatCompletionStreamResponse → String)
    (hj : ∀ r, json r ≠ "[DONE]") (f : OllamaChatResponse → ChatCompletionStreamResponse)
    (l : List OllamaChatResponse) : doneSentinel ∉ l.map (fun x => frame (json (f x))) := by
  intro h
  obtain ⟨x, _, hx⟩ := List.mem_map.mp h
  exact frame_ne_doneSentinel _ (hj _) hx

theorem sampleMarshal_ne_done (r : ChatCompletionStreamResponse) : sampleMarshal r ≠ "[DONE]" := by
  intro h
  have h2 := congrArg (fun s => s.data.head?) h
  simp [sampleMarshal, String.data_append] at h2

/-! ## Text completion prompt -/

/-- C6, the defect: a prompt that is a JSON list of strings is decoded as a generic list, which
`Completion` rejects with `unsupported prompt type` before any backend call, and the handler
answers 500; the prompt is not joined with newlines. -/
theorem Completion_rejects_json_string_list (w : World) (h : CompletionsHandler)
    (req : CompletionRequest) (ss : List String) :
    h.ollamaService.Completion w
        { req with Prompt := decodeInterface (.array (ss.map .string)) } =
        (.error "unsupported prompt type", []) ∧
      (h.Completions w
          (.ok { req with Model := "m", Prompt := decodeInterface (.array (ss.map .string)) })) =
        { Status := 500, Headers := [("Content-Type", "application/json")],
          Body := internalError "ollama_error", Calls := [] } := by
  constructor
  · simp [OllamaService.Completion, decodeInterface]
  · simp [CompletionsHandler.Completions, OllamaService.Completion, decodeInterface,
      GoValue.isNil, respondJSON, internalError]

/-- C7, as stated, fails: the request `{"model":"m","prompt":5}` is answered with status 500
and error type `internal_error`, not with 400 and `invalid_request_error`. -/
theorem Completions_number_prompt_500 :
    ((CompletionsHandler.mk defaultService).Completions sampleWorld
          (.ok (completionRequest "m" (decodeInterface (.number ⟨5⟩))))).Status = 500 ∧
      ((CompletionsHandler.mk defaultService).Completions sampleWorld
          (.ok (completionRequest "m" (decodeInterface (.number ⟨5⟩))))).Status ≠ 400 ∧
      ((CompletionsHandler.mk defaultService).Completions sampleWorld
          (.ok (completionRequest "m" (decodeInterface (.number ⟨5⟩))))).Body =
        .error
          { Error :=
              { Message := "Internal server error", Type_ := "internal_error",
                Code := "ollama_error" } } := by
  refine ⟨rfl, by decide, rfl⟩

/-- C7, amended: for every /v1/completions request with a non-empty model whose prompt is
present but is a boolean, a number, an object or a list with a non-string element, the
Completions handler answers with status 500, error type `internal_error` and code
`ollama_error`, and no backend call is made. -/
theorem Completions_unsupported_prompt (w : World) (h : CompletionsHandler)
    (req : CompletionRequest) (hmodel : req.Model ≠ "")
    (hprompt : unsupportedPrompt req.Prompt = true) :
    h.Completions w (.ok req) =
      { Status := 500, Headers := [("Content-Type", "application/json")],
        Body :=
          .error
            { Error :=
                { Message := "Internal server error", Type_ := "internal_error",
                  Code := "ollama_error" } },
        Calls := [] } := by
  cases hp : req.Prompt <;> rw [hp] at hprompt <;>
    simp_all [CompletionsHandler.Completions, OllamaService.Completion, GoValue.isNil,
      respondJSON, unsupportedPrompt]

theorem Completions_unsupported_prompt_witness :
    (CompletionsHandler.mk defaultService).Completions sampleWorld
        (.ok (completionRequest "m" (.map [("text", .string "hi")]))) =
      { Status := 500, Headers := [("Content-Type", "application/json")],
        Body :=
          .error
            { Error :=
                { Message := "Internal server error", Type_ := "internal_error",
                  Code := "ollama_error" } },
        Calls := [] } :=
  Completions_unsupported_prompt sampleWorld (CompletionsHandler.mk defaultService)
    (completionRequest "m" (.map [("text", .string "hi")])) (by decide) rfl

/-! ## Validation -/

/-- C8: for a parsed /v1/chat/completions request an empty model yields 400 with type
`invalid_request_error` and code `missing_model`, and a non-empty model with no messages
yields 400 with code `missing_messages`; for a parsed /v1/completions request an empty model
yields 400 with code `missing_model` and a non-empty model with an absent prompt yields 400
with code `missing_prompt`; in each case no backend call is made. -/
theorem missing_fields_rejected (w : World) (hc : ChatHandler) (hp : CompletionsHandler)
    (req : ChatCompletionRequest) (creq : CompletionRequest) :
    (req.Model = "" →
        hc.ChatCompletions w (.ok req) =
          { Status := 400, Headers := [("Content-Type", "application/json")],
            Body :=
              .error
                { Error :=
                    { Message := "Model is required", Type_ := "invalid_request_error",
                      Code := "missing_model" } },
            Calls := [] }) ∧
      (req.Model ≠ "" → req.Messages = [] →
        hc.ChatCompletions w (.ok req) =
          { Status := 400, Headers := [("Content-Type", "application/json")],
            Body :=
              .error
                { Error :=
                    { Message := "Messages are required", Type_ := "invalid_request_error",
                      Code := "missing_messages" } },
            Calls := [] }) ∧
      (creq.Model = "" →
        hp.Completions w (.ok creq) =
          { Status := 400, Headers := [("Content-Type", "application/json")],
            Body :=
              .error
                { Error :=
                    { Message := "Model is required", Type_ := "invalid_request_error",
                      Code := "missing_model" } },
            Calls := [] }) ∧
      (creq.Model ≠ "" → creq.Prompt.isNil = true →
        hp.Completions w (.ok creq) =
          { Status := 400, Headers := [("Content-Type", "application/json")],
            Body :=
              .error
                { Error :=
                    { Message := "Prompt is required", Type_ := "invalid_request_error",
                      Code := "missing_prompt" } },
            Calls := [] }) := by
  refine ⟨?_, ?_, ?_, ?_⟩
  · intro h
    simp [ChatHandler.ChatCompletions, h, respondJSON]
  · intro h1 h2
    simp [ChatHandler.ChatCompletions, h1, h2, respondJSON]
  · intro h
    simp [CompletionsHandler.Completions, h, respondJSON]
  · intro h1 h2
    simp [CompletionsHandler.Completions, h1, h2, respondJSON]

theorem missing_fields_rejected_witness :
    ((ChatHandler.mk defaultService).ChatCompletions sampleWorld
          (.ok (chatRequest "" [] none))).Status = 400 ∧
      ((ChatHandler.mk defaultService).ChatCompletions sampleWorld
          (.ok (chatRequest "x" [] none))).Calls = [] ∧
      ((CompletionsHandler.mk defaultService).Completions sampleWorld
          (.ok (completionRequest "" .nil))).Status = 400 ∧
      ((CompletionsHandler.mk defaultService).Completions sampleWorld
          (.ok (completionRequest "x" .nil))).Calls = [] :=
  ⟨congrArg HandlerResult.Status
      ((missing_fields_rejected sampleWorld ⟨defaultService⟩ ⟨defaultService⟩
        (chatRequest "" [] none) (completionRequest "" .nil)).1 rfl),
    congrArg HandlerResult.Calls
      ((missing_fields_rejected sampleWorld ⟨defaultService⟩ ⟨defaultService⟩
        (chatRequest "x" [] none) (completionRequest "" .nil)).2.1 (by decide) rfl),
    congrArg HandlerResult.Status
      ((missing_fields_rejected sampleWorld ⟨defaultService⟩ ⟨defaultService⟩
        (chatRequest "" [] none) (completionRequest "" .nil)).2.2.1 rfl),
    congrArg HandlerResult.Calls
      ((missing_fields_rejected sampleWorld ⟨defaultService⟩ ⟨defaultService⟩
        (chatRequest "" [] none) (completionRequest "x" .nil)).2.2.2 (by decide) rfl)⟩

/-! ## Backend-call failures -/

theorem ChatCompletions_service_error (w : World) (h : ChatHandler) (req : ChatCompletionRequest)
    (e : String) (hmodel : req.Model ≠ "") (hmsgs : req.Messages ≠ [])
    (hstream : req.Stream ≠ some true)
    (he : (h.ollamaService.ChatCompletion w req).1 = .error e) :
    (h.ChatCompletions w (.ok req)).Status = 500 ∧
      (h.ChatCompletions w (.ok req)).Body = internalError "ollama_error" := by
  rcases hres : h.ollamaService.ChatCompletion w req with ⟨r, calls⟩
  rw [hres] at he
  simp only at he
  subst he
  simp [ChatHandler.ChatCompletions, hmodel, hmsgs, hstream, hres, respondJSON, internalError]

theorem ChatCompletions_stream_error (w : World) (h : ChatHandler) (req : ChatCompletionRequest)
    (e : String) (hmodel : req.Model ≠ "") (hmsgs : req.Messages ≠ [])
    (hstream : req.Stream = some true)
    (he : (h.ollamaService.ChatCompletionStream w req).1 = .error e) :
    (h.ChatCompletions w (.ok req)).Status = 500 ∧
      (h.ChatCompletions w (.ok req)).Body = internalError "ollama_stream_error" := by
  rcases hres : h.ollamaService.ChatCompletionStream w req with ⟨r, calls⟩
  rw [hres] at he
  simp only at he
  subst he
  simp [ChatHandler.ChatCompletions, ChatHandler.handleStreamingChat, hmodel, hmsgs, hstream,
    hres, respondJSON, internalError]

theorem Completions_service_error (w : World) (h : CompletionsHandler) (req : CompletionRequest)
    (e : String) (hmodel : req.Model ≠ "") (hprompt : req.Prompt.isNil = false)
    (he : (h.ollamaService.Completion w req).1 = .error e) :
    (h.Completions w (.ok req)).Status = 500 ∧
      (h.Completions w (.ok req)).Body = internalError "ollama_error" := by
  rcases hres : h.ollamaService.Completion w req with ⟨r, calls⟩
  rw [hres] at he
  simp only at he
  subst he
  simp [CompletionsHandler.Completions, hmodel, hprompt, hres, respondJSON, internalError]

theorem GetModels_service_error (w : World) (h : ModelsHandler) (e : String)
    (he : (h.ollamaService.GetModels w).1 = .error e) :
    (h.GetModels w).Status = 500 ∧ (h.GetModels w).Body = internalError "ollama_error" := by
  rcases hres : h.ollamaService.GetModels w with ⟨r, calls⟩
  rw [hres] at he
  simp only at he
  subst he
  simp [ModelsHandler.GetModels, hres, respondJSON, internalError]

/-- C9: for a request that passes validation, when the service call of the chat handler
(streaming or not), of the completions handler or of the models handler returns an error, the
response has status 500 and an error envelope of type `internal_error` whose message and code
are constants; so two runs on the same request that fail with any two backend error texts
`e1` and `e2` answer with the same body, which carries neither text. -/
theorem backend_failure_hides_detail (w1 w2 : World) (hc : ChatHandler) (hp : CompletionsHandler)
    (hm : ModelsHandler) (req : ChatCompletionRequest) (creq : CompletionRequest)
    (e1 e2 : String) :
    (req.Model ≠ "" → req.Messages ≠ [] → req.Stream ≠ some true →
        (hc.ollamaService.ChatCompletion w1 req).1 = .error e1 →
        (hc.ollamaService.ChatCompletion w2 req).1 = .error e2 →
        (hc.ChatCompletions w1 (.ok req)).Status = 500 ∧
          (hc.ChatCompletions w1 (.ok req)).Body =
            .error
              { Error :=
                  { Message := "Internal server error", Type_ := "internal_error",
                    Code := "ollama_error" } } ∧
          (hc.ChatCompletions w1 (.ok req)).Body = (hc.ChatCompletions w2 (.ok req)).Body) ∧
      (req.Model ≠ "" → req.Messages ≠ [] → req.Stream = some true →
        (hc.ollamaService.ChatCompletionStream w1 req).1 = .error e1 →
        (hc.ollamaService.ChatCompletionStream w2 req).1 = .error e2 →
        (hc.ChatCompletions w1 (.ok req)).Status = 500 ∧
          (hc.ChatCompletions w1 (.ok req)).Body =
            .error
              { Error :=
                  { Message := "Internal server error", Type_ := "internal_error",
                    Code := "ollama_stream_error" } } ∧
          (hc.ChatCompletions w1 (.ok req)).Body = (hc.ChatCompletions w2 (.ok req)).Body) ∧
      (creq.Model ≠ "" → creq.Prompt.isNil = false →
        (hp.ollamaService.Completion w1 creq).1 = .error e1 →
        (hp.ollamaService.Completion w2 creq).1 = .error e2 →
        (hp.Completions w1 (.ok creq)).Status = 500 ∧
          (hp.Completions w1 (.ok creq)).Body =
            .error
              { Error :=
                  { Message := "Internal server error", Type_ := "internal_error",
                    Code := "ollama_error" } } ∧
          (hp.Completions w1 (.ok creq)).Body = (hp.Completions w2 (.ok creq)).Body) ∧
      ((hm.ollamaService.GetModels w1).1 = .error e1 →
        (hm.ollamaService.GetModels w2).1 = .error e2 →
        (hm.GetModels w1).Status = 500 ∧
          (hm.GetModels w1).Body =
            .error
              { Error :=
                  { Message := "Internal server error", Type_ := "internal_error",
                    Code := "ollama_error" } } ∧
          (hm.GetModels w1).Body = (hm.GetModels w2).Body) := by
  refine ⟨?_, ?_, ?_, ?_⟩
  · intro h1 h2 h3 he1 he2
    have a := ChatCompletions_service_error w1 hc req e1 h1 h2 h3 he1
    have b := ChatCompletions_service_error w2 hc req e2 h1 h2 h3 he2
    exact ⟨a.1, a.2, a.2.trans b.2.symm⟩
  · intro h1 h2 h3 he1 he2
    have a := ChatCompletions_stream_error w1 hc req e1 h1 h2 h3 he1
    have b := ChatCompletions_stream_error w2 hc req e2 h1 h2 h3 he2
    exact ⟨a.1, a.2, a.2.trans b.2.symm⟩
  · intro h1 h2 he1 he2
    have a := Completions_service_error w1 hp creq e1 h1 h2 he1
    have b := Completions_service_error w2 hp creq e2 h1 h2 he2
    exact ⟨a.1, a.2, a.2.trans b.2.symm⟩
  · intro he1 he2
    have a := GetModels_service_error w1 hm e1 he1
    have b := GetModels_service_error w2 hm e2 he2
    exact ⟨a.1, a.2, a.2.trans b.2.symm⟩

theorem backend_failure_hides_detail_witness :
    ((ChatHandler.mk defaultService).ChatCompletions (unreachableWorld "dial tcp: refused")
          (.ok (chatRequest "x" [⟨"user", .string "hi", ""⟩] none))).Body =
        ((ChatHandler.mk defaultService).ChatCompletions (unreachableWorld "secret-host: timeout")
          (.ok (chatRequest "x" [⟨"user", .string "hi", ""⟩] none))).Body ∧
      ((ChatHandler.mk defaultService).ChatCompletions (unreachableWorld "dial tcp: refused")
          (.ok (chatRequest "x" [⟨"user", .string "hi", ""⟩] (some true)))).Status = 500 ∧
      ((CompletionsHandler.mk defaultService).Completions (unreachableWorld "dial tcp: refused")
          (.ok (completionRequest "x" (.string "hi")))).Status = 500 ∧
      ((ModelsHandler.mk defaultService).GetModels (unreachableWorld "dial tcp: refused")).Body =
        ((ModelsHandler.mk defaultService).GetModels
          (unreachableWorld "secret-host: timeout")).Body :=
  ⟨((backend_failure_hides_detail (unreachableWorld "dial tcp: refused")
        (unreachableWorld "secret-host: timeout") ⟨defaultService⟩ ⟨defaultService⟩
        ⟨defaultService⟩ (chatRequest "x" [⟨"user", .string "hi", ""⟩] none)
        (completionRequest "x" (.string "hi"))
        "failed to make request to Ollama: dial tcp: refused"
        "failed to make request to Ollama: secret-host: timeout").1
      (by decide) (by simp [chatRequest]) (by simp [chatRequest]) rfl rfl).2.2,
    ((backend_failure_hides_detail (unreachableWorld "dial tcp: refused")
        (unreachableWorld "secret-host: timeout") ⟨defaultService⟩ ⟨defaultService⟩
        ⟨defaultService⟩ (chatRequest "x" [⟨"user", .string "hi", ""⟩] (some true))
        (completionRequest "x" (.string "hi"))
        "failed to make request to Ollama: dial tcp: refused"
        "failed to make request to Ollama: secret-host: timeout").2.1
      (by decide) (by simp [chatRequest]) rfl rfl rfl).1,
    ((backend_failure_hides_detail (unreachableWorld "dial tcp: refused")
        (unreachableWorld "secret-host: timeout") ⟨defaultService⟩ ⟨defaultService⟩
        ⟨defaultService⟩ (chatRequest "x" [⟨"user", .string "hi", ""⟩] none)
        (completionRequest "x" (.string "hi"))
        "failed to make request to Ollama: dial tcp: refused"
        "failed to make request to Ollama: secret-host: timeout").2.2.1
      (by decide) rfl rfl rfl).1,
    ((backend_failure_hides_detail (unreachableWorld "dial tcp: refused")
        (unreachableWorld "secret-host: timeout") ⟨defaultService⟩ ⟨defaultService⟩
        ⟨defaultService⟩ (chatRequest "x" [⟨"user", .string "hi", ""⟩] none)
        (completionRequest "x" (.string "hi"))
        "failed to get models from Ollama: dial tcp: refused"
        "failed to get models from Ollama: secret-host: timeout").2.2.2 rfl rfl).2.2⟩

/-! ## Single-shot chat completion -/

theorem foldl_formatMessages (w : World) (acc : String) (messages : List ChatMessage) :
    messages.foldl
        (fun result msg =>
          result ++ (msg.Role ++ ": " ++ msg.GetContentAsString w.sprintV ++ "\n")) acc =
      acc ++ promptText w messages := by
  induction messages generalizing acc with
  | nil => simp [promptText]
  | cons m ms ih =>
    rw [List.foldl_cons, ih]
    simp [promptText, String.append_assoc]

theorem formatMessages_eq (w : World) (messages : List ChatMessage) :
    formatMessages w.sprintV messages = promptText w messages := by
  rw [formatMessages, foldl_formatMessages]
  simp

theorem ChatCompletion_ok (w : World) (s : OllamaService) (req : ChatCompletionRequest)
    (jsonData : String) (resp : BackendResponse) (ollamaResp : OllamaChatResponse)
    (hm : w.marshalChatRequest
        (ollamaChatRequest w s req
          (if req.Model = "" then s.config.OllamaModel else req.Model) false) = .ok jsonData)
    (hpost : w.post (s.config.OllamaURL ++ "/api/chat") "application/json" jsonData = .ok resp)
    (hstatus : resp.StatusCode = 200)
    (hdec : w.decodeChatResponse resp.Body = .ok ollamaResp) :
    s.ChatCompletion w req =
      (.ok
        { ID := generateID (w.now 0)
          Object := "chat.completion"
          Created := (w.now 1).Unix
          Model := req.Model
          Choices := [{ Index := 0, Message := ollamaResp.Message, FinishReason := "stop" }]
          Usage :=
            { PromptTokens := estimateTokens (promptText w req.Messages)
              CompletionTokens :=
                estimateTokens (ollamaResp.Message.GetContentAsString w.sprintV)
              TotalTokens :=
                estimateTokens (promptText w req.Messages) +
                  estimateTokens (ollamaResp.Message.GetContentAsString w.sprintV) } },
        [BackendCall.post (s.config.OllamaURL ++ "/api/chat") "application/json" jsonData]) := by
  rw [ollamaChatRequest] at hm
  simp only [OllamaService.ChatCompletion, hm, hpost, hstatus, hdec, formatMessages_eq]
  simp

/-- C11: when the backend call of `ChatCompletion` succeeds with a response whose message is
`ollamaResp.Message`, the OpenAI response has exactly one choice, of index 0, finish reason
`stop` and that message; its prompt tokens are the estimate of the concatenation of
`role: canonical content` plus newline over the request's messages, its completion tokens
the estimate of the canonicalized reply, and its total tokens the sum of the two. -/
theorem single_shot_usage (w : World) (s : OllamaService) (req : ChatCompletionRequest)
    (jsonData : String) (resp : BackendResponse) (ollamaResp : OllamaChatResponse)
    (hm : w.marshalChatRequest
        (ollamaChatRequest w s req
          (if req.Model = "" then s.config.OllamaModel else req.Model) false) = .ok jsonData)
    (hpost : w.post (s.config.OllamaURL ++ "/api/chat") "application/json" jsonData = .ok resp)
    (hstatus : resp.StatusCode = 200)
    (hdec : w.decodeChatResponse resp.Body = .ok ollamaResp) :
    ∃ out, (s.ChatCompletion w req).1 = .ok out ∧
      out.Choices = [{ Index := 0, Message := ollamaResp.Message, FinishReason := "stop" }] ∧
      out.Usage.PromptTokens = estimateTokens (promptText w req.Messages) ∧
      out.Usage.CompletionTokens =
        estimateTokens (ollamaResp.Message.GetContentAsString w.sprintV) ∧
      out.Usage.TotalTokens = out.Usage.PromptTokens + out.Usage.CompletionTokens := by
  rw [ChatCompletion_ok w s req jsonData resp ollamaResp hm hpost hstatus hdec]
  exact ⟨_, rfl, rfl, rfl, rfl, rfl⟩

theorem single_shot_usage_witness :
    ∃ out,
      (defaultService.ChatCompletion (replyWorld "hello")
          (chatRequest "x" [⟨"user", .string "hi", ""⟩] (some false))).1 = .ok out ∧
        out.Choices =
          [{ Index := 0, Message := ⟨"assistant", .string "hello", ""⟩, FinishReason := "stop" }] ∧
        out.Usage.PromptTokens = estimateTokens "user: hi\n" ∧
        out.Usage.CompletionTokens = estimateTokens "hello" ∧
        out.Usage.TotalTokens = out.Usage.PromptTokens + out.Usage.CompletionTokens :=
  single_shot_usage (replyWorld "hello") defaultService
    (chatRequest "x" [⟨"user", .string "hi", ""⟩] (some false)) "x"
    { StatusCode := 200, Body := "hello" }
    { Model := "m", CreatedAt := "",
      Message := { Role := "assistant", Content := .string "hello", Name := "" }, Done := true }
    rfl rfl rfl rfl

/-! ## The stream as a function of its chunks -/

theorem streamLoop_eq (w : World) (id : String) (created : Int) (req : ChatCompletionRequest)
    (json : ChatCompletionStreamResponse → String)
    (hm : ∀ r, w.marshalStreamResponse r = .ok (json r)) (lines : List String) :
    streamLoop w id created req lines =
      (upToFirstDone (parsedChunks w lines)).map
          (fun c => frame (json (chunkEnvelope w id created req c))) ++
        streamTail (parsedChunks w lines) := by
  induction lines with
  | nil => simp [parsedChunks, streamLoop, upToFirstDone, streamTail]
  | cons line rest ih =>
    rw [parsedChunks_cons, streamLoop]
    by_cases hl : line = ""
    · simp only [hl, if_true, Option.toList, List.nil_append]
      exact ih
    · simp only [hl, if_false]
      cases hu : w.unmarshalChatResponse line with
      | error e =>
        simp only [Except.toOption, Option.toList, List.nil_append]
        exact ih
      | ok r =>
        simp only [Except.toOption, Option.toList, List.singleton_append]
        cases hr : r.Done with
        | true =>
          simp [hr, hm, setFinishReason, upToFirstDone, streamTail, chunkEnvelope, chunkDelta,
            deltaEnvelope, frame, doneSentinel]
        | false =>
          simp [hr, hm, ih, upToFirstDone, streamTail, chunkEnvelope, chunkDelta,
            deltaEnvelope, frame]

theorem streamLoop_cons_congr (w : World) (id : String) (created : Int)
    (req : ChatCompletionRequest) (line : String) (a b : List String)
    (h : streamLoop w id created req a = streamLoop w id created req b) :
    streamLoop w id created req (line :: a) = streamLoop w id created req (line :: b) := by
  simp only [streamLoop, h]

theorem streamLoop_noise_cons (w : World) (id : String) (created : Int)
    (req : ChatCompletionRequest) (line : String) (rest : List String)
    (h : isNoise w line = true) :
    streamLoop w id created req (line :: rest) = streamLoop w id created req rest := by
  rw [streamLoop]
  by_cases hl : line = ""
  · simp [hl]
  · cases hu : w.unmarshalChatResponse line with
    | error e => simp [hl]
    | ok r => simp [isNoise, hl, hu, Except.toOption] at h

theorem streamLoop_filter_noise (w : World) (id : String) (created : Int)
    (req : ChatCompletionRequest) (lines : List String) :
    streamLoop w id created req lines =
      streamLoop w id created req (lines.filter fun l => !isNoise w l) := by
  induction lines with
  | nil => rfl
  | cons line rest ih =>
    cases hn : isNoise w line with
    | true =>
      rw [streamLoop_noise_cons w id created req line rest hn, ih]
      simp [List.filter_cons, hn]
    | false =>
      rw [List.filter_cons]
      simp only [hn, Bool.not_false, if_true]
      exact streamLoop_cons_congr w id created req line _ _ ih

/-- C12: every delta envelope emitted by one run of the goroutine of `ChatCompletionStream`
carries the id and the created timestamp read from the clock before the first line is
scanned, and the request's model; so any two envelopes of one stream have equal id, equal
created and equal model. -/
theorem stream_shares_id_created (w : World) (req : ChatCompletionRequest) (body : String)
    (json : ChatCompletionStreamResponse → String)
    (hm : ∀ r, w.marshalStreamResponse r = .ok (json r)) :
    ∃ envs : List ChatCompletionStreamResponse,
      streamGoroutine w req body =
          envs.map (fun e => frame (json e)) ++ streamTail (parsedChunks w (w.scanLines body)) ∧
        envs =
          (upToFirstDone (parsedChunks w (w.scanLines body))).map (fun c =>
            { ID := generateID (w.now 0), Object := "chat.completion.chunk",
              Created := (w.now 1).Unix, Model := req.Model,
              Choices :=
                [{ Index := 0
                   Delta := { Role := "", Content := c.Message.GetContentAsString w.sprintV }
                   FinishReason := if c.Done then some "stop" else none }] }) ∧
        (∀ e ∈ envs,
          e.ID = generateID (w.now 0) ∧ e.Created = (w.now 1).Unix ∧ e.Model = req.Model) ∧
        (∀ e1 ∈ envs, ∀ e2 ∈ envs,
          e1.ID = e2.ID ∧ e1.Created = e2.Created ∧ e1.Model = e2.Model) := by
  have hfields : ∀ e ∈ (upToFirstDone (parsedChunks w (w.scanLines body))).map
      (chunkEnvelope w (generateID (w.now 0)) (w.now 1).Unix req),
      e.ID = generateID (w.now 0) ∧ e.Created = (w.now 1).Unix ∧ e.Model = req.Model := by
    intro e he
    obtain ⟨c, _, rfl⟩ := List.mem_map.mp he
    exact ⟨rfl, rfl, rfl⟩
  refine ⟨(upToFirstDone (parsedChunks w (w.scanLines body))).map
      (chunkEnvelope w (generateID (w.now 0)) (w.now 1).Unix req), ?_, rfl, hfields, ?_⟩
  · rw [streamGoroutine, streamLoop_eq w _ _ req json hm, List.map_map]
    rfl
  · intro e1 h1 e2 h2
    obtain ⟨a1, b1, c1⟩ := hfields e1 h1
    obtain ⟨a2, b2, c2⟩ := hfields e2 h2
    exact ⟨a1.trans a2.symm, b1.trans b2.symm, c1.trans c2.symm⟩

theorem stream_shares_id_created_witness :
    ∃ envs : List ChatCompletionStreamResponse,
      streamGoroutine sampleWorld chatRequestNumberStop "Hel\nlo\nend" =
          envs.map (fun e => frame (sampleMarshal e)) ++
            streamTail (parsedChunks sampleWorld (sampleWorld.scanLines "Hel\nlo\nend")) ∧
        envs =
          (upToFirstDone (parsedChunks sampleWorld (sampleWorld.scanLines "Hel\nlo\nend"))).map
            (fun c =>
              { ID := generateID (sampleWorld.now 0), Object := "chat.completion.chunk",
                Created := (sampleWorld.now 1).Unix, Model := chatRequestNumberStop.Model,
                Choices :=
                  [{ Index := 0
                     Delta :=
                       { Role := ""
                         Content := c.Message.GetContentAsString sampleWorld.sprintV }
                     FinishReason := if c.Done then some "stop" else none }] }) ∧
        (∀ e ∈ envs,
          e.ID = generateID (sampleWorld.now 0) ∧ e.Created = (sampleWorld.now 1).Unix ∧
            e.Model = chatRequestNumberStop.Model) ∧
        (∀ e1 ∈ envs, ∀ e2 ∈ envs,
          e1.ID = e2.ID ∧ e1.Created = e2.Created ∧ e1.Model = e2.Model) :=
  stream_shares_id_created sampleWorld chatRequestNumberStop "Hel\nlo\nend" sampleMarshal
    (fun _ => rfl)

/-! ## Model resolution -/

theorem ChatCompletion_calls (w : World) (s : OllamaService) (req : ChatCompletionRequest) :
    (s.ChatCompletion w req).2 =
      chatCalls w s
        (ollamaChatRequest w s req
          (if req.Model = "" then s.config.OllamaModel else req.Model) false) := by
  simp only [OllamaService.ChatCompletion, chatCalls, ollamaChatRequest]
  repeat' split
  all_goals first | rfl | simp_all

theorem ChatCompletionStream_calls (w : World) (s : OllamaService)
    (req : ChatCompletionRequest) :
    (s.ChatCompletionStream w req).2 =
      chatCalls w s
        (ollamaChatRequest w s req
          (if req.Model = "" then s.config.OllamaModel else req.Model) true) := by
  simp only [OllamaService.ChatCompletionStream, chatCalls, ollamaChatRequest]
  repeat' split
  all_goals first | rfl | simp_all

theorem ChatCompletion_model (w : World) (s : OllamaService) (req : ChatCompletionRequest)
    (out : ChatCompletionResponse) (h : (s.ChatCompletion w req).1 = .ok out) :
    out.Model = req.Model := by
  simp only [OllamaService.ChatCompletion] at h
  repeat' split at h
  all_goals first | cases h; rfl | simp at h

theorem ChatCompletionStream_ok (w : World) (s : OllamaService) (req : ChatCompletionRequest)
    (out : List String) (h : (s.ChatCompletionStream w req).1 = .ok out) :
    ∃ body, out = streamGoroutine w req body := by
  simp only [OllamaService.ChatCompletionStream] at h
  repeat' split at h
  all_goals first | exact ⟨_, by cases h; rfl⟩ | simp at h

/-- C14: on the chat path, single-shot and streaming, the request sent to the backend carries
the request's model verbatim when it is non-empty and the configured default model when it
is empty; the model of the OpenAI response, and of every streaming envelope, is the
request's model string unchanged, also when the default was substituted. -/
theorem chat_model_resolution (w : World) (s : OllamaService) (req : ChatCompletionRequest)
    (json : ChatCompletionStreamResponse → String) :
    (req.Model ≠ "" →
        (s.ChatCompletion w req).2 =
            chatCalls w s (ollamaChatRequest w s req req.Model false) ∧
          (s.ChatCompletionStream w req).2 =
            chatCalls w s (ollamaChatRequest w s req req.Model true)) ∧
      (req.Model = "" →
        (s.ChatCompletion w req).2 =
            chatCalls w s (ollamaChatRequest w s req s.config.OllamaModel false) ∧
          (s.ChatCompletionStream w req).2 =
            chatCalls w s (ollamaChatRequest w s req s.config.OllamaModel true)) ∧
      (∀ m stream, (ollamaChatRequest w s req m stream).Model = m) ∧
      (∀ out, (s.ChatCompletion w req).1 = .ok out → out.Model = req.Model) ∧
      ((∀ r, w.marshalStreamResponse r = .ok (json r)) →
        ∀ out, (s.ChatCompletionStream w req).1 = .ok out →
          ∃ (envs : List ChatCompletionStreamResponse) (tail : List String),
            out = envs.map (fun e => frame (json e)) ++ tail ∧
              (tail = [] ∨ tail = [doneSentinel]) ∧ ∀ e ∈ envs, e.Model = req.Model) := by
  refine ⟨?_, ?_, fun _ _ => rfl, ChatCompletion_model w s req, ?_⟩
  · intro h
    have h1 := ChatCompletion_calls w s req
    have h2 := ChatCompletionStream_calls w s req
    rw [if_neg h] at h1 h2
    exact ⟨h1, h2⟩
  · intro h
    have h1 := ChatCompletion_calls w s req
    have h2 := ChatCompletionStream_calls w s req
    rw [if_pos h] at h1 h2
    exact ⟨h1, h2⟩
  · intro hm out hout
    obtain ⟨body, rfl⟩ := ChatCompletionStream_ok w s req out hout
    refine ⟨(upToFirstDone (parsedChunks w (w.scanLines body))).map
        (chunkEnvelope w (generateID (w.now 0)) (w.now 1).Unix req),
      streamTail (parsedChunks w (w.scanLines body)), ?_, ?_, ?_⟩
    · rw [streamGoroutine, streamLoop_eq w _ _ req json hm, List.map_map]
      rfl
    · unfold streamTail
      split
      · exact Or.inr rfl
      · exact Or.inl rfl
    · intro e he
      obtain ⟨c, _, rfl⟩ := List.mem_map.mp he
      rfl

theorem chat_model_resolution_witness :
    (defaultService.ChatCompletion (replyWorld "hello")
          (chatRequest "x" [⟨"user", .string "hi", ""⟩] none)).2 =
        [BackendCall.post "http://localhost:11434/api/chat" "application/json" "x"] ∧
      (defaultService.ChatCompletion (replyWorld "hello")
          (chatRequest "" [⟨"user", .string "hi", ""⟩] none)).2 =
        [BackendCall.post "http://localhost:11434/api/chat" "application/json"
          "llama3.2:latest"] ∧
      (defaultService.ChatCompletionStream sampleWorld
          (chatRequest "" [⟨"user", .string "hi", ""⟩] (some true))).2 =
        [BackendCall.post "http://localhost:11434/api/chat" "application/json"
          "llama3.2:latest"] ∧
      (∃ out,
        (defaultService.ChatCompletion (replyWorld "hello")
            (chatRequest "" [⟨"user", .string "hi", ""⟩] none)).1 = .ok out ∧
          out.Model = "") :=
  ⟨((chat_model_resolution (replyWorld "hello") defaultService
        (chatRequest "x" [⟨"user", .string "hi", ""⟩] none) sampleMarshal).1 (by decide)).1,
    ((chat_model_resolution (replyWorld "hello") defaultService
        (chatRequest "" [⟨"user", .string "hi", ""⟩] none) sampleMarshal).2.1 rfl).1,
    ((chat_model_resolution sampleWorld defaultService
        (chatRequest "" [⟨"user", .string "hi", ""⟩] (some true)) sampleMarshal).2.1 rfl).2,
    ⟨_, rfl,
      (chat_model_resolution (replyWorld "hello") defaultService
        (chatRequest "" [⟨"user", .string "hi", ""⟩] none) sampleMarshal).2.2.2.1 _ rfl⟩⟩

/-! ## The line scanner -/

theorem rawLines_append_newline (l rest : List Char) (h : Char.ofNat 10 ∉ l) :
    rawLines (l ++ Char.ofNat 10 :: rest) = l :: rawLines rest := by
  induction l with
  | nil => simp [rawLines]
  | cons c l ih =>
    have hc : c ≠ Char.ofNat 10 := fun e => h (e ▸ List.mem_cons_self _ _)
    have hl : Char.ofNat 10 ∉ l := fun e => h (List.mem_cons_of_mem _ e)
    rw [List.cons_append, rawLines, if_neg hc, ih hl]

theorem bodyLines_append_newline (l rest : List Char) (h : Char.ofNat 10 ∉ l) :
    bodyLines (String.mk (l ++ Char.ofNat 10 :: rest)) =
      String.mk l :: bodyLines (String.mk rest) := by
  show List.map String.mk (rawLines (l ++ Char.ofNat 10 :: rest)) = _
  rw [rawLines_append_newline l rest h]
  rfl

theorem utf8ByteSize_replicate (n : Nat) (c : Char) :
    (String.mk (List.replicate n c)).utf8ByteSize = n * c.utf8Size := by
  induction n with
  | zero => simp [String.utf8ByteSize, String.utf8ByteSize.go]
  | succ n ih =>
    simp only [String.utf8ByteSize, List.replicate_succ, String.utf8ByteSize.go] at ih ⊢
    rw [ih, Nat.succ_mul]

theorem newline_not_mem_replicate (n : Nat) (c : Char) (h : c ≠ Char.ofNat 10) :
    Char.ofNat 10 ∉ List.replicate n c := by
  intro hm
  exact h (List.eq_of_mem_replicate hm).symm

theorem bufioScanLines_long_first (l rest : List Char) (h : Char.ofNat 10 ∉ l)
    (hl : MaxScanTokenSize ≤ (String.mk l).utf8ByteSize) :
    bufioScanLines (String.mk (l ++ Char.ofNat 10 :: rest)) = [] := by
  have hd : decide ((String.mk l).utf8ByteSize < MaxScanTokenSize) = false := by
    simp only [decide_eq_false_iff_not]
    omega
  rw [bufioScanLines, bodyLines_append_newline l rest h, List.takeWhile_cons, hd]
  rfl

theorem bufioScanLines_short_first (l rest : List Char) (h : Char.ofNat 10 ∉ l)
    (hl : (String.mk l).utf8ByteSize < MaxScanTokenSize) :
    bufioScanLines (String.mk (l ++ Char.ofNat 10 :: rest)) =
      dropCR (String.mk l) :: bufioScanLines (String.mk rest) := by
  have hd : decide ((String.mk l).utf8ByteSize < MaxScanTokenSize) = true := by
    simp only [decide_eq_true_eq]
    exact hl
  rw [bufioScanLines, bodyLines_append_newline l rest h, List.takeWhile_cons, hd]
  rfl

theorem longChunkLine_size : MaxScanTokenSize ≤ (String.mk longChunkLine).utf8ByteSize := by
  rw [longChunkLine, utf8ByteSize_replicate]
  exact Nat.le_of_eq (Nat.mul_one _).symm

theorem longNoiseLine_size : MaxScanTokenSize ≤ (String.mk longNoiseLine).utf8ByteSize := by
  rw [longNoiseLine, utf8ByteSize_replicate]
  exact Nat.le_of_eq (Nat.mul_one _).symm

theorem scan_skips_short_noise (p q : String → Bool) (l : String) (post : List String)
    (hp : p l = true) (hq : q (dropCR l) = false) (pre : List String) :
    (((pre ++ l :: post).takeWhile p).map dropCR).filter q =
      (((pre ++ post).takeWhile p).map dropCR).filter q := by
  induction pre with
  | nil => simp [List.takeWhile_cons, hp, List.filter_cons, hq]
  | cons x pre ih =>
    simp only [List.cons_append, List.takeWhile_cons]
    cases p x with
    | true => simp only [if_true, List.map_cons, List.filter_cons, ih]
    | false => rfl

/-! ## The streaming method on a scanned body -/

theorem ChatCompletionStream_eq (w : World) (s : OllamaService) (req : ChatCompletionRequest)
    (jsonData : String) (resp : BackendResponse)
    (hreq : w.marshalChatRequest
        (ollamaChatRequest w s req
          (if req.Model = "" then s.config.OllamaModel else req.Model) true) = .ok jsonData)
    (hpost : w.post (s.config.OllamaURL ++ "/api/chat") "application/json" jsonData = .ok resp)
    (hstatus : resp.StatusCode = 200) :
    s.ChatCompletionStream w req =
      (.ok (streamGoroutine w req resp.Body),
        [BackendCall.post (s.config.OllamaURL ++ "/api/chat") "application/json" jsonData]) := by
  rw [ollamaChatRequest] at hreq
  simp only [OllamaService.ChatCompletionStream, hreq, hpost, hstatus]
  simp

theorem streamGoroutine_scan (w : World) (req : ChatCompletionRequest) (body : String)
    (hscan : ∀ b, w.scanLines b = bufioScanLines b) :
    streamGoroutine w req body =
      streamLoop w (generateID (w.now 0)) (w.now 1).Unix req (bufioScanLines body) := by
  rw [streamGoroutine, hscan]

theorem streamLoop_withBody (w : World) (b : String) (id : String) (created : Int)
    (req : ChatCompletionRequest) (lines : List String) :
    streamLoop (withBody w b) id created req lines = streamLoop w id created req lines := by
  induction lines with
  | nil => rfl
  | cons line rest ih =>
    rw [streamLoop, streamLoop, ih]
    rfl

theorem ChatCompletionStream_withBody (w : World) (s : OllamaService)
    (req : ChatCompletionRequest) (b : String) :
    (s.ChatCompletionStream (withBody w b) req).1 =
      match w.marshalChatRequest
          (ollamaChatRequest w s req
            (if req.Model = "" then s.config.OllamaModel else req.Model) true) with
      | .error err => .error ("failed to marshal request: " ++ err)
      | .ok _ => .ok (streamGoroutine w req b) := by
  have hg : streamGoroutine (withBody w b) req b = streamGoroutine w req b := by
    rw [streamGoroutine, streamGoroutine, streamLoop_withBody]
    rfl
  rw [← hg]
  simp only [OllamaService.ChatCompletionStream, ollamaChatRequest, withBody]
  split <;> simp_all

/-- C1, as stated, fails: the backend body whose two lines are a chunk of 65536 bytes, not
marked done, and the done chunk `end` holds the chunks `c1, c2` with only the last one done,
yet `ChatCompletionStream` publishes nothing, neither their frames nor the sentinel: the
scanner stops at the first line, which does not fit its buffer. -/
theorem stream_long_chunk_truncated :
    bodyLines longChunkBody = [String.mk longChunkLine, "end"] ∧
      scannerUnmarshal (String.mk longChunkLine) =
        .ok (sampleChunk (String.mk longChunkLine) false) ∧
      scannerUnmarshal "end" = .ok (sampleChunk "" true) ∧
      (defaultService.ChatCompletionStream (scannerWorld longChunkBody)
          (chatRequest "x" [⟨"user", .string "hi", ""⟩] (some true))).1 = .ok [] := by
  refine ⟨?_, rfl, rfl, ?_⟩
  · rw [longChunkBody,
      bodyLines_append_newline longChunkLine _ (newline_not_mem_replicate _ _ (by decide))]
    rfl
  · rw [ChatCompletionStream_eq (scannerWorld longChunkBody) defaultService
        (chatRequest "x" [⟨"user", .string "hi", ""⟩] (some true)) "x"
        { StatusCode := 200, Body := longChunkBody } rfl rfl rfl,
      streamGoroutine_scan _ _ _ (fun _ => rfl),
      show bufioScanLines longChunkBody = [] from
        bufioScanLines_long_first longChunkLine "end".data
          (newline_not_mem_replicate _ _ (by decide)) longChunkLine_size]
    rfl

/-- C1, amended: when the backend answers the chat request with status 200 and the chunks
parsed from the lines of the body that precede its first line of 65536 bytes or more (from
all its lines when it has none) are `c1, ..., cn` with only the last one marked done,
`ChatCompletionStream` publishes exactly the frames `data: <json>\n\n` of the deltas of
`c1, ..., c(n-1)` with a null finish reason, then the frame of the delta of `cn` with finish
reason `stop`, then `data: [DONE]\n\n`; every delta has one choice of index 0 carrying the
canonicalized content of its chunk. -/
theorem stream_preserves_order (w : World) (s : OllamaService) (req : ChatCompletionRequest)
    (jsonData : String) (resp : BackendResponse) (json : ChatCompletionStreamResponse → String)
    (cs : List OllamaChatResponse) (c : OllamaChatResponse)
    (hscan : ∀ b, w.scanLines b = bufioScanLines b)
    (hreq : w.marshalChatRequest
        (ollamaChatRequest w s req
          (if req.Model = "" then s.config.OllamaModel else req.Model) true) = .ok jsonData)
    (hpost : w.post (s.config.OllamaURL ++ "/api/chat") "application/json" jsonData = .ok resp)
    (hstatus : resp.StatusCode = 200)
    (hm : ∀ r, w.marshalStreamResponse r = .ok (json r))
    (hp : parsedChunks w (bufioScanLines resp.Body) = cs ++ [c])
    (hn : ∀ x ∈ cs, x.Done = false) (hd : c.Done = true) :
    (s.ChatCompletionStream w req).1 =
      .ok
        (cs.map (fun x =>
            "data: " ++
              json
                { ID := generateID (w.now 0), Object := "chat.completion.chunk",
                  Created := (w.now 1).Unix, Model := req.Model,
                  Choices :=
                    [{ Index := 0
                       Delta :=
                         { Role := "", Content := x.Message.GetContentAsString w.sprintV }
                       FinishReason := none }] } ++
              "\n\n") ++
          ["data: " ++
              json
                { ID := generateID (w.now 0), Object := "chat.completion.chunk",
                  Created := (w.now 1).Unix, Model := req.Model,
                  Choices :=
                    [{ Index := 0
                       Delta :=
                         { Role := "", Content := c.Message.GetContentAsString w.sprintV }
                       FinishReason := some "stop" }] } ++
              "\n\n",
            "data: [DONE]\n\n"]) := by
  rw [ChatCompletionStream_eq w s req jsonData resp hreq hpost hstatus,
    streamGoroutine_scan w req _ hscan, streamLoop_split w _ _ req json hm _ cs c [] hp hn hd]
  rfl

theorem stream_preserves_order_witness :
    (defaultService.ChatCompletionStream (scannerWorld "Hel\n\nxx\nlo\r\nend")
        (chatRequest "x" [⟨"user", .string "hi", ""⟩] (some true))).1 =
      .ok
        ["data: json(chatcmpl-1700000000000000000|Hel|null)\n\n",
          "data: json(chatcmpl-1700000000000000000|lo|null)\n\n",
          "data: json(chatcmpl-1700000000000000000||stop)\n\n", "data: [DONE]\n\n"] :=
  stream_preserves_order (scannerWorld "Hel\n\nxx\nlo\r\nend") defaultService
    (chatRequest "x" [⟨"user", .string "hi", ""⟩] (some true)) "x"
    { StatusCode := 200, Body := "Hel\n\nxx\nlo\r\nend" } sampleMarshal
    [sampleChunk "Hel" false, sampleChunk "lo" false] (sampleChunk "" true) (fun _ => rfl) rfl
    rfl rfl (fun _ => rfl) rfl (by simp [sampleChunk]) rfl

/-- C2, as stated, fails: the backend body whose lines are `Hel`, a chunk of 65536 bytes and
the done chunk `end` holds a line that parses as a chunk marked done, yet the output of
`ChatCompletionStream` is the frame of `Hel` alone and has no sentinel. -/
theorem stream_done_chunk_no_sentinel :
    bodyLines longMiddleBody = ["Hel", String.mk longChunkLine, "end"] ∧
      scannerUnmarshal "end" = .ok (sampleChunk "" true) ∧
      (defaultService.ChatCompletionStream (scannerWorld longMiddleBody)
          (chatRequest "x" [⟨"user", .string "hi", ""⟩] (some true))).1 =
        .ok ["data: json(chatcmpl-1700000000000000000|Hel|null)\n\n"] ∧
      doneSentinel ∉ ["data: json(chatcmpl-1700000000000000000|Hel|null)\n\n"] := by
  refine ⟨?_, rfl, ?_, by decide⟩
  · rw [longMiddleBody, bodyLines_append_newline "Hel".data _ (by decide),
      bodyLines_append_newline longChunkLine _ (newline_not_mem_replicate _ _ (by decide))]
    rfl
  · rw [ChatCompletionStream_eq (scannerWorld longMiddleBody) defaultService
        (chatRequest "x" [⟨"user", .string "hi", ""⟩] (some true)) "x"
        { StatusCode := 200, Body := longMiddleBody } rfl rfl rfl,
      streamGoroutine_scan _ _ _ (fun _ => rfl),
      show bufioScanLines longMiddleBody = ["Hel"] from by
        rw [longMiddleBody, bufioScanLines_short_first "Hel".data _ (by decide) (by decide),
          bufioScanLines_long_first longChunkLine "end".data
            (newline_not_mem_replicate _ _ (by decide)) longChunkLine_size]
        rfl]
    rfl

/-- C2, amended: when the backend answers the chat request with status 200, the output of
`ChatCompletionStream` contains the terminal sentinel exactly when some chunk parsed from the
lines of the body that precede its first line of 65536 bytes or more is marked done; then the
output is the frames of the chunks before the first done chunk, the frame of the first done
chunk with finish reason `stop`, and the sentinel, which so occurs once, as the last element,
with nothing of the later lines emitted; when no such chunk is marked done the output has no
sentinel. -/
theorem stream_sentinel (w : World) (s : OllamaService) (req : ChatCompletionRequest)
    (jsonData : String) (resp : BackendResponse) (json : ChatCompletionStreamResponse → String)
    (hscan : ∀ b, w.scanLines b = bufioScanLines b)
    (hreq : w.marshalChatRequest
        (ollamaChatRequest w s req
          (if req.Model = "" then s.config.OllamaModel else req.Model) true) = .ok jsonData)
    (hpost : w.post (s.config.OllamaURL ++ "/api/chat") "application/json" jsonData = .ok resp)
    (hstatus : resp.StatusCode = 200)
    (hm : ∀ r, w.marshalStreamResponse r = .ok (json r)) (hj : ∀ r, json r ≠ "[DONE]") :
    ∃ out, (s.ChatCompletionStream w req).1 = .ok out ∧
      (doneSentinel ∈ out ↔ ∃ c ∈ parsedChunks w (bufioScanLines resp.Body), c.Done = true) ∧
      (∀ pre c post, parsedChunks w (bufioScanLines resp.Body) = pre ++ c :: post →
        (∀ x ∈ pre, x.Done = false) → c.Done = true →
        out =
          pre.map (fun x =>
              frame (json (chunkDelta w (generateID (w.now 0)) (w.now 1).Unix req none x))) ++
            [frame
                (json (chunkDelta w (generateID (w.now 0)) (w.now 1).Unix req (some "stop") c)),
              doneSentinel]) ∧
      (doneSentinel ∈ out → out.count doneSentinel = 1 ∧ out.getLast? = some doneSentinel) ∧
      ((∀ c ∈ parsedChunks w (bufioScanLines resp.Body), c.Done = false) →
        doneSentinel ∉ out) := by
  refine ⟨streamLoop w (generateID (w.now 0)) (w.now 1).Unix req (bufioScanLines resp.Body),
    ?_, ?_⟩
  · rw [ChatCompletionStream_eq w s req jsonData resp hreq hpost hstatus,
      streamGoroutine_scan w req _ hscan]
  have hnone : (∀ c ∈ parsedChunks w (bufioScanLines resp.Body), c.Done = false) →
      doneSentinel ∉
        streamLoop w (generateID (w.now 0)) (w.now 1).Unix req (bufioScanLines resp.Body) := by
    intro hn
    rw [streamLoop_no_done w _ _ req json hm _ hn]
    exact doneSentinel_not_mem_frames json hj _ _
  have hsplit : ∀ pre c post, parsedChunks w (bufioScanLines resp.Body) = pre ++ c :: post →
      (∀ x ∈ pre, x.Done = false) → c.Done = true →
      streamLoop w (generateID (w.now 0)) (w.now 1).Unix req (bufioScanLines resp.Body) =
        pre.map (fun x =>
            frame (json (chunkDelta w (generateID (w.now 0)) (w.now 1).Unix req none x))) ++
          [frame
              (json (chunkDelta w (generateID (w.now 0)) (w.now 1).Unix req (some "stop") c)),
            doneSentinel] := by
    intro pre c post hp hn hd
    rw [streamLoop_split w _ _ req json hm _ pre c post hp hn hd]
  have hex : doneSentinel ∈
      streamLoop w (generateID (w.now 0)) (w.now 1).Unix req (bufioScanLines resp.Body) →
      ∃ c ∈ parsedChunks w (bufioScanLines resp.Body), c.Done = true := by
    intro hmem
    by_contra hno
    refine hnone (fun c hc => ?_) hmem
    cases hd : c.Done with
    | false => rfl
    | true => exact absurd ⟨c, hc, hd⟩ hno
  refine ⟨⟨hex, ?_⟩, hsplit, ?_, hnone⟩
  · intro h
    obtain ⟨pre, c, post, hp, hn, hd⟩ := exists_first_done _ h
    rw [hsplit pre c post hp hn hd]
    simp
  · intro hmem
    obtain ⟨pre, c, post, hp, hn, hd⟩ := exists_first_done _ (hex hmem)
    rw [hsplit pre c post hp hn hd]
    constructor
    · rw [List.count_append,
        List.count_eq_zero_of_not_mem (doneSentinel_not_mem_frames json hj _ _)]
      have hne : frame (json (chunkDelta w (generateID (w.now 0)) (w.now 1).Unix req
          (some "stop") c)) ≠ doneSentinel := frame_ne_doneSentinel _ (hj _)
      simp [List.count_cons, hne]
    · simp [List.getLast?_append]

theorem stream_sentinel_witness :
    ∃ out,
      (defaultService.ChatCompletionStream (scannerWorld "Hel\nend\nlate")
          (chatRequest "x" [⟨"user", .string "hi", ""⟩] (some true))).1 = .ok out ∧
        doneSentinel ∈ out ∧ out.count doneSentinel = 1 ∧
        out.getLast? = some doneSentinel ∧
        out =
          ["data: json(chatcmpl-1700000000000000000|Hel|null)\n\n",
            "data: json(chatcmpl-1700000000000000000||stop)\n\n", "data: [DONE]\n\n"] := by
  obtain ⟨out, h1, h2, h3, h4, _⟩ :=
    stream_sentinel (scannerWorld "Hel\nend\nlate") defaultService
      (chatRequest "x" [⟨"user", .string "hi", ""⟩] (some true)) "x"
      { StatusCode := 200, Body := "Hel\nend\nlate" } sampleMarshal (fun _ => rfl) rfl rfl rfl
      (fun _ => rfl) sampleMarshal_ne_done
  have hmem : doneSentinel ∈ out := by
    refine h2.2 ⟨sampleChunk "" true, ?_, rfl⟩
    show sampleChunk "" true ∈
      [sampleChunk "Hel" false, sampleChunk "" true, sampleChunk "late" false]
    simp
  exact ⟨out, h1, hmem, (h4 hmem).1, (h4 hmem).2,
    h3 [sampleChunk "Hel" false] (sampleChunk "" true) [sampleChunk "late" false] rfl
      (by simp [sampleChunk]) rfl⟩

/-- C13, as stated, fails: inserting a line of 65536 bytes that fails to parse between the
lines `Hel` and `end` changes the sequence emitted by `ChatCompletionStream` from the two
envelopes and the sentinel to the envelope of `Hel` alone: the scanner stops at the inserted
line and the stream is aborted. -/
theorem long_noise_line_aborts :
    bodyLines "Hel\nend" = ["Hel", "end"] ∧
      bodyLines longNoiseBody = ["Hel", String.mk longNoiseLine, "end"] ∧
      isNoise (scannerWorld longNoiseBody) (String.mk longNoiseLine) = true ∧
      (defaultService.ChatCompletionStream (scannerWorld "Hel\nend")
          (chatRequest "x" [⟨"user", .string "hi", ""⟩] (some true))).1 =
        .ok
          ["data: json(chatcmpl-1700000000000000000|Hel|null)\n\n",
            "data: json(chatcmpl-1700000000000000000||stop)\n\n", "data: [DONE]\n\n"] ∧
      (defaultService.ChatCompletionStream (scannerWorld longNoiseBody)
          (chatRequest "x" [⟨"user", .string "hi", ""⟩] (some true))).1 =
        .ok ["data: json(chatcmpl-1700000000000000000|Hel|null)\n\n"] := by
  refine ⟨rfl, ?_, rfl, rfl, ?_⟩
  · rw [longNoiseBody, bodyLines_append_newline "Hel".data _ (by decide),
      bodyLines_append_newline longNoiseLine _ (newline_not_mem_replicate _ _ (by decide))]
    rfl
  · rw [ChatCompletionStream_eq (scannerWorld longNoiseBody) defaultService
        (chatRequest "x" [⟨"user", .string "hi", ""⟩] (some true)) "x"
        { StatusCode := 200, Body := longNoiseBody } rfl rfl rfl,
      streamGoroutine_scan _ _ _ (fun _ => rfl),
      show bufioScanLines longNoiseBody = ["Hel"] from by
        rw [longNoiseBody, bufioScanLines_short_first "Hel".data _ (by decide) (by decide),
          bufioScanLines_long_first longNoiseLine "end".data
            (newline_not_mem_replicate _ _ (by decide)) longNoiseLine_size]
        rfl]
    rfl

/-- C13, amended: empty lines and lines that fail to parse are skipped without aborting the
stream as long as they have fewer than 65536 bytes: inserting or removing such a line anywhere
among the lines of the backend body, and more generally any change of the body that keeps
the sequence of the other scanned lines, leaves the sequence published by
`ChatCompletionStream` unchanged; and when the backend answers with status 200 the method
publishes exactly one envelope per chunk parsed from the lines of the body that precede its
first line of 65536 bytes or more, up to and including the first done chunk, followed by the
sentinel when there is a done chunk. -/
theorem noise_lines_skipped (w : World) (s : OllamaService) (req : ChatCompletionRequest)
    (b1 b2 : String) (pre post : List String) (l : String) (jsonData : String)
    (resp : BackendResponse) (json : ChatCompletionStreamResponse → String)
    (hscan : ∀ b, w.scanLines b = bufioScanLines b) :
    (isNoise w (dropCR l) = true → l.utf8ByteSize < MaxScanTokenSize →
        bodyLines b1 = pre ++ l :: post → bodyLines b2 = pre ++ post →
        (s.ChatCompletionStream (withBody w b1) req).1 =
          (s.ChatCompletionStream (withBody w b2) req).1) ∧
      ((bufioScanLines b1).filter (fun x => !isNoise w x) =
          (bufioScanLines b2).filter (fun x => !isNoise w x) →
        (s.ChatCompletionStream (withBody w b1) req).1 =
          (s.ChatCompletionStream (withBody w b2) req).1) ∧
      (w.marshalChatRequest
            (ollamaChatRequest w s req
              (if req.Model = "" then s.config.OllamaModel else req.Model) true) =
          .ok jsonData →
        w.post (s.config.OllamaURL ++ "/api/chat") "application/json" jsonData = .ok resp →
        resp.StatusCode = 200 → (∀ r, w.marshalStreamResponse r = .ok (json r)) →
        (s.ChatCompletionStream w req).1 =
          .ok
            ((upToFirstDone (parsedChunks w (bufioScanLines resp.Body))).map (fun c =>
                frame
                  (json (chunkEnvelope w (generateID (w.now 0)) (w.now 1).Unix req c))) ++
              streamTail (parsedChunks w (bufioScanLines resp.Body)))) := by
  have hfilter : (bufioScanLines b1).filter (fun x => !isNoise w x) =
      (bufioScanLines b2).filter (fun x => !isNoise w x) →
      (s.ChatCompletionStream (withBody w b1) req).1 =
        (s.ChatCompletionStream (withBody w b2) req).1 := by
    intro h
    rw [ChatCompletionStream_withBody, ChatCompletionStream_withBody,
      streamGoroutine_scan w req b1 hscan, streamGoroutine_scan w req b2 hscan,
      streamLoop_filter_noise w _ _ req (bufioScanLines b1),
      streamLoop_filter_noise w _ _ req (bufioScanLines b2), h]
  refine ⟨?_, hfilter, ?_⟩
  · intro hn hl h1 h2
    apply hfilter
    rw [bufioScanLines, bufioScanLines, h1, h2]
    exact scan_skips_short_noise _ _ l post (by simpa using hl) (by simp [hn]) pre
  · intro hreq hpost hstatus hm
    rw [ChatCompletionStream_eq w s req jsonData resp hreq hpost hstatus,
      streamGoroutine_scan w req _ hscan, streamLoop_eq w _ _ req json hm]

theorem noise_lines_skipped_witness :
    (defaultService.ChatCompletionStream (withBody (scannerWorld "") "Hel\nxx\nend")
          (chatRequest "x" [⟨"user", .string "hi", ""⟩] (some true))).1 =
        (defaultService.ChatCompletionStream (withBody (scannerWorld "") "Hel\nend")
          (chatRequest "x" [⟨"user", .string "hi", ""⟩] (some true))).1 ∧
      (defaultService.ChatCompletionStream (scannerWorld "xx\nHel\n\r\nxx\nend\nlate")
          (chatRequest "x" [⟨"user", .string "hi", ""⟩] (some true))).1 =
        .ok
          ["data: json(chatcmpl-1700000000000000000|Hel|null)\n\n",
            "data: json(chatcmpl-1700000000000000000||stop)\n\n", "data: [DONE]\n\n"] :=
  ⟨(noise_lines_skipped (scannerWorld "") defaultService
        (chatRequest "x" [⟨"user", .string "hi", ""⟩] (some true)) "Hel\nxx\nend" "Hel\nend"
        ["Hel"] ["end"] "xx" "x" { StatusCode := 200, Body := "" } sampleMarshal
        (fun _ => rfl)).1 rfl (by decide) rfl rfl,
    (noise_lines_skipped (scannerWorld "xx\nHel\n\r\nxx\nend\nlate") defaultService
        (chatRequest "x" [⟨"user", .string "hi", ""⟩] (some true)) "" "" [] [] "" "x"
        { StatusCode := 200, Body := "xx\nHel\n\r\nxx\nend\nlate" } sampleMarshal
        (fun _ => rfl)).2.2 rfl rfl rfl (fun _ => rfl)⟩
end OpenAICompat
